import Mathlib

/-!
The MemoryTracer plugin (`src/s2e/Plugins/ExecutionTracers/MemoryTracer.cpp`)

A shallow embedding of the S2E memory tracer: the trigger policy
(`decideTracing`), the record builders for concrete and potentially symbolic
accesses, and the subscription manager (`enableTracing`, `connectMemoryTracing`,
...), followed by theorems about them.

Conventions.
* Unsigned machine integers are natural numbers. The tracer only compares and
  copies them, except for the tick counter, which is incremented modulo `2 ^ 64`.
* The plugin object is the structure `MemoryTracer`; a member function
  `MemoryTracer::f` is the Lean function `MemoryTracer.f` taking the object first
  and returning the updated object.
* `m_tracer->writeData(state, item, type)` appends an entry to the log kept in the
  field `m_tracer`.
* A result of type `Option` is `none` when the process stops (`exit(-1)` or a
  failed `assert`).
-/

namespace S2E

/-! ## Collaborators -/

/-- A `klee::ref<klee::Expr>` as far as the tracer looks at it: either a
`klee::ConstantExpr`, with the value `getZExtValue(64)` returns, or some other
expression, identified by a number. Both carry their bit width. -/
inductive Expr where
  | constant (value : Nat) (width : Nat)
  | symbolic (id : Nat) (width : Nat)
deriving DecidableEq, Repr

/-- The test `isa<klee::ConstantExpr>(e)`. -/
def Expr.isConstant : Expr → Bool
  | .constant _ _ => true
  | .symbolic _ _ => false

/-- The expression `isa<klee::ConstantExpr>(e) ? cast<klee::ConstantExpr>(e)->getZExtValue(64) : other`,
which the record builder uses for each operand. -/
def Expr.constantOr (e : Expr) (other : Nat) : Nat :=
  match e with
  | .constant v _ => v
  | .symbolic _ _ => other

/-- The width `e->getWidth()`. -/
def Expr.getWidth : Expr → Nat
  | .constant _ w => w
  | .symbolic _ w => w

/-- The function `klee::Expr::getMinBytesForWidth`: the width rounded up to whole bytes. -/
def Expr.getMinBytesForWidth (w : Nat) : Nat := (w + 7) / 8

/-- A `klee::ObjectState` found in the address space: the address of its concrete
store and whether the current state owns it (`addressSpace.isOwnedByUs`). -/
structure ObjectState where
  concreteStore : Nat
  ownedByUs : Bool
deriving DecidableEq, Repr

/-- What the tracer reads from an `S2EExecutionState`:
* `pc`: `state->regs()->getPc()`;
* `currentDescriptor`: whether `m_execDetector->getCurrentDescriptor(state)` is non-null;
* `evaluate e`: the value of the constant `state->concolics->evaluate(e)`
  (the code uses the result of `dyn_cast<klee::ConstantExpr>` without a check);
* `findObject a`: the object `state->addressSpace.findObject(a)` when both halves
  of the returned pair are non-null. -/
structure S2EExecutionState where
  pc : Nat
  currentDescriptor : Bool
  evaluate : Expr → Nat
  findObject : Nat → Option ObjectState

/-- Constants, macros and options the source uses but does not define (they come
from `s2e/opcodes.h`, `TraceEntries.pb.h`, `MemoryTracer.h`, the CPU headers and
the command line); they are parameters of the embedding. -/
structure Constants where
  /-- The command-line option `ConcolicMode`. -/
  ConcolicMode : Bool
  MEM_TRACE_FLAG_WRITE : Nat
  MEM_TRACE_FLAG_IO : Nat
  EXECTRACE_MEM_WRITE : Nat
  EXECTRACE_MEM_IO : Nat
  EXECTRACE_MEM_SYMBVAL : Nat
  EXECTRACE_MEM_SYMBADDR : Nat
  EXECTRACE_MEM_HASHOSTADDR : Nat
  EXECTRACE_MEM_SYMBHOSTADDR : Nat
  EXECTRACE_MEM_OBJECTSTATE : Nat
  SE_RAM_OBJECT_MASK : Nat
  /-- The macro `OPCODE_CHECK(operand, opcode)`. -/
  OPCODE_CHECK : Nat → Nat → Bool
  MEMORY_TRACER_OPCODE : Nat
  /-- The enumerator `MemoryTracerOpcodes::Enable`. -/
  Enable : Nat
  /-- The enumerator `MemoryTracerOpcodes::Disable`. -/
  Disable : Nat

/-- The C test `if (word & flag)`. -/
def testFlag (word flag : Nat) : Bool := word &&& flag != 0

/-- Bit positions of the seven facets of the flag word of a memory record. -/
structure FlagBits where
  write : Nat
  io : Nat
  symbVal : Nat
  symbAddr : Nat
  hasHostAddr : Nat
  symbHostAddr : Nat
  objectState : Nat
deriving DecidableEq, Repr

/-- The positions of a `FlagBits`, as a list. -/
def FlagBits.toList (b : FlagBits) : List Nat :=
  [b.write, b.io, b.symbVal, b.symbAddr, b.hasHostAddr, b.symbHostAddr, b.objectState]

/-- The enumerators of `s2e_trace::PbTraceMemoryAccess::Flags` are single bits, at
the pairwise distinct positions `b`. -/
def Constants.Layout (K : Constants) (b : FlagBits) : Prop :=
  K.EXECTRACE_MEM_WRITE = 2 ^ b.write ∧
  K.EXECTRACE_MEM_IO = 2 ^ b.io ∧
  K.EXECTRACE_MEM_SYMBVAL = 2 ^ b.symbVal ∧
  K.EXECTRACE_MEM_SYMBADDR = 2 ^ b.symbAddr ∧
  K.EXECTRACE_MEM_HASHOSTADDR = 2 ^ b.hasHostAddr ∧
  K.EXECTRACE_MEM_SYMBHOSTADDR = 2 ^ b.symbHostAddr ∧
  K.EXECTRACE_MEM_OBJECTSTATE = 2 ^ b.objectState ∧
  b.toList.Nodup

/-! ## Trace records -/

/-- The message `s2e_trace::PbTraceMemoryAccess`; `concrete_buffer` is only set
when an object state was found. -/
structure PbTraceMemoryAccess where
  pc : Nat
  address : Nat
  value : Nat
  size : Nat
  host_address : Nat
  flags : Nat
  concrete_buffer : Option Nat
deriving DecidableEq, Repr

/-- The message `s2e_trace::PbTraceSimpleMemoryAccess`. -/
structure PbTraceSimpleMemoryAccess where
  pc : Nat
  address : Nat
  is_write : Bool
deriving DecidableEq, Repr

/-- The record kinds the tracer hands to the sink. -/
inductive PbTraceItemHeaderType where
  | TRACE_MEMORY
  | TRACE_TLBMISS
  | TRACE_PAGEFAULT
deriving DecidableEq, Repr

/-- The payload of one `writeData` call. -/
inductive TraceData where
  | memoryAccess (item : PbTraceMemoryAccess)
  | simpleMemoryAccess (item : PbTraceSimpleMemoryAccess)
deriving DecidableEq, Repr

/-- One `writeData` call: the payload and its kind tag. -/
structure TraceEntry where
  type : PbTraceItemHeaderType
  data : TraceData
deriving DecidableEq, Repr

/-! ## Signals and connections -/

/-- A `sigc::connection` member together with the slots this plugin registered
through it: `connected` is what `connected()` returns for the handle, `detached`
counts slots that are still registered on the signal although the handle was
overwritten by a later `connect`. -/
structure Connection where
  connected : Bool
  detached : Nat
deriving DecidableEq, Repr

/-- The call `c.disconnect()`: removes the slot the handle refers to, if any. -/
def Connection.disconnect (c : Connection) : Connection :=
  { c with connected := false }

/-- The assignment `c = signal.connect(slot)`: registers a new slot and lets the
handle refer to it; a slot the handle referred to before stays registered. -/
def Connection.assign (c : Connection) : Connection :=
  { connected := true, detached := c.detached + (if c.connected then 1 else 0) }

/-- The number of slots of this plugin that are registered on the signal. -/
def Connection.slots (c : Connection) : Nat :=
  c.detached + (if c.connected then 1 else 0)

/-- A `ModuleDescriptor`; the tracer only tests pointers to it for null. -/
structure ModuleDescriptor where
  id : Nat
deriving DecidableEq, Repr

/-- The `ModuleExecutionDetector` plugin as the tracer uses it: the number of slots
the tracer registered on its two signals (no handle is kept for them). -/
structure ModuleExecutionDetector where
  onModuleTransition : Nat
  onModuleTranslateBlockStart : Nat
deriving DecidableEq, Repr

/-! ## The plugin object -/

/-- The members of `MemoryTracer`, the log of the `ExecutionTracer` it writes to
(`m_tracer`), and the slots it registered without keeping a handle
(`customInstructionSlots` on the signal `onCustomInstruction` of the core plugin,
`executeBlockStartSlots` on the execution signals of translated blocks). -/
structure MemoryTracer where
  m_tracer : List TraceEntry
  m_execDetector : Option ModuleExecutionDetector
  m_monitorModules : Bool
  m_monitorStack : Bool
  m_catchAbove : Nat
  m_catchBelow : Nat
  m_traceHostAddresses : Bool
  m_debugObjectStates : Bool
  m_timeTrigger : Nat
  m_elapsedTics : Nat
  m_monitorMemory : Bool
  m_monitorPageFaults : Bool
  m_monitorTlbMisses : Bool
  m_symbolicMemoryMonitor : Connection
  m_concreteMemoryMonitor : Connection
  m_pageFaultsMonitor : Connection
  m_tlbMissesMonitor : Connection
  m_timerConnection : Connection
  customInstructionSlots : Nat
  executeBlockStartSlots : Nat
deriving DecidableEq, Repr

namespace MemoryTracer

/-! ## Trigger policy -/

/-- The function `MemoryTracer::decideTracing`. -/
def decideTracing (t : MemoryTracer) (state : S2EExecutionState) : Bool :=
  if t.m_catchAbove != 0 || t.m_catchBelow != 0 then
    if t.m_catchAbove != 0 && decide (t.m_catchAbove ≥ state.pc) then
      false
    else if t.m_catchBelow != 0 && decide (t.m_catchBelow < state.pc) then
      false
    else
      true
  else
    true

/-! ## Record builder -/

/-- The function `MemoryTracer::traceConcreteDataMemoryAccess`. -/
def traceConcreteDataMemoryAccess (K : Constants) (t : MemoryTracer) (state : S2EExecutionState)
    (address value size flags : Nat) : MemoryTracer :=
  if !t.decideTracing state then
    t
  else
    let traceFlags := 0
    let traceFlags :=
      if testFlag flags K.MEM_TRACE_FLAG_WRITE then traceFlags ||| K.EXECTRACE_MEM_WRITE
      else traceFlags
    let traceFlags :=
      if testFlag flags K.MEM_TRACE_FLAG_IO then traceFlags ||| K.EXECTRACE_MEM_IO
      else traceFlags
    let item : PbTraceMemoryAccess :=
      { pc := state.pc, address := address, value := value, size := size,
        host_address := 0, flags := traceFlags, concrete_buffer := none }
    { t with m_tracer := t.m_tracer ++ [⟨.TRACE_MEMORY, .memoryAccess item⟩] }

/-- The function `MemoryTracer::traceSymbolicDataMemoryAccess`; `none` when the
`assert` on the ownership of the object state fails. -/
def traceSymbolicDataMemoryAccess (K : Constants) (t : MemoryTracer) (state : S2EExecutionState)
    (address hostAddress value : Expr) (flags : Nat) : Option MemoryTracer :=
  if !t.decideTracing state then
    some t
  else
    let isAddrCste := address.isConstant
    let isValCste := value.isConstant
    let isHostAddrCste := hostAddress.isConstant
    let traceFlags := 0
    let concreteAddress := if K.ConcolicMode then state.evaluate address else 0xdeadbeef
    let concreteValue := if K.ConcolicMode then state.evaluate value else 0xdeadbeef
    let itemAddress := address.constantOr concreteAddress
    let itemValue := value.constantOr concreteValue
    let itemSize := Expr.getMinBytesForWidth value.getWidth
    let traceFlags :=
      if testFlag flags K.MEM_TRACE_FLAG_WRITE then traceFlags ||| K.EXECTRACE_MEM_WRITE
      else traceFlags
    let traceFlags :=
      if testFlag flags K.MEM_TRACE_FLAG_IO then traceFlags ||| K.EXECTRACE_MEM_IO
      else traceFlags
    let itemHostAddress := hostAddress.constantOr 0xDEADBEEF
    let op := state.findObject (itemHostAddress &&& K.SE_RAM_OBJECT_MASK)
    let traceFlags :=
      if t.m_traceHostAddresses then
        (traceFlags ||| K.EXECTRACE_MEM_HASHOSTADDR) ||| K.EXECTRACE_MEM_OBJECTSTATE
      else traceFlags
    let itemConcreteBuffer :=
      if t.m_traceHostAddresses then op.map (fun os => os.concreteStore) else none
    let assertFails :=
      t.m_traceHostAddresses &&
        (match op with
         | some os => testFlag flags K.MEM_TRACE_FLAG_WRITE && t.m_debugObjectStates && !os.ownedByUs
         | none => false)
    let traceFlags := if !isAddrCste then traceFlags ||| K.EXECTRACE_MEM_SYMBADDR else traceFlags
    let traceFlags := if !isValCste then traceFlags ||| K.EXECTRACE_MEM_SYMBVAL else traceFlags
    let traceFlags :=
      if !isHostAddrCste then traceFlags ||| K.EXECTRACE_MEM_SYMBHOSTADDR else traceFlags
    let item : PbTraceMemoryAccess :=
      { pc := state.pc, address := itemAddress, value := itemValue, size := itemSize,
        host_address := itemHostAddress, flags := traceFlags,
        concrete_buffer := itemConcreteBuffer }
    if assertFails then
      none
    else
      some { t with m_tracer := t.m_tracer ++ [⟨.TRACE_MEMORY, .memoryAccess item⟩] }

/-- The `assert` of `traceSymbolicDataMemoryAccess` does not fail: whenever it is
reached (host addresses are traced, the access is a write, `debugObjectStates` is
set and an object is found for the host address of the record), the object is
owned by the state. -/
def ownershipAssertHolds (K : Constants) (t : MemoryTracer) (state : S2EExecutionState)
    (hostAddress : Expr) (flags : Nat) : Prop :=
  t.m_traceHostAddresses = true → testFlag flags K.MEM_TRACE_FLAG_WRITE = true →
    t.m_debugObjectStates = true →
    ∀ os, state.findObject (hostAddress.constantOr 0xDEADBEEF &&& K.SE_RAM_OBJECT_MASK) = some os →
      os.ownedByUs = true

/-! ## Subscription manager -/

/-- The function `MemoryTracer::connectMemoryTracing`. -/
def connectMemoryTracing (t : MemoryTracer) : MemoryTracer :=
  let t :=
    if !t.m_symbolicMemoryMonitor.connected then
      { t with m_symbolicMemoryMonitor := t.m_symbolicMemoryMonitor.assign }
    else t
  if !t.m_concreteMemoryMonitor.connected then
    { t with m_concreteMemoryMonitor := t.m_concreteMemoryMonitor.assign }
  else t

/-- The function `MemoryTracer::disconnectMemoryTracing`. -/
def disconnectMemoryTracing (t : MemoryTracer) : MemoryTracer :=
  { t with
    m_symbolicMemoryMonitor := t.m_symbolicMemoryMonitor.disconnect
    m_concreteMemoryMonitor := t.m_concreteMemoryMonitor.disconnect }

/-- The function `MemoryTracer::disableTracing`. -/
def disableTracing (t : MemoryTracer) : MemoryTracer :=
  let t := t.disconnectMemoryTracing
  { t with
    m_pageFaultsMonitor := t.m_pageFaultsMonitor.disconnect
    m_tlbMissesMonitor := t.m_tlbMissesMonitor.disconnect }

/-- The function `MemoryTracer::tracingEnabled` (the spec's `isTracingActive`). -/
def tracingEnabled (t : MemoryTracer) : Bool :=
  t.m_symbolicMemoryMonitor.connected || t.m_concreteMemoryMonitor.connected

/-- The function `MemoryTracer::enableTracing`. The two `connect` calls on the
module detector go through `m_execDetector`, which `initialize` has checked to be
present whenever `m_monitorModules` is set. -/
def enableTracing (t : MemoryTracer) : MemoryTracer :=
  let t :=
    if t.m_monitorMemory then
      let t := { t with m_symbolicMemoryMonitor := t.m_symbolicMemoryMonitor.disconnect }
      if t.m_monitorModules then
        { t with
          m_execDetector := t.m_execDetector.map fun d =>
            { onModuleTransition := d.onModuleTransition + 1
              onModuleTranslateBlockStart := d.onModuleTranslateBlockStart + 1 } }
      else
        t.connectMemoryTracing
    else t
  let t :=
    if t.m_monitorPageFaults then
      { t with m_pageFaultsMonitor := t.m_pageFaultsMonitor.disconnect.assign }
    else t
  if t.m_monitorTlbMisses then
    { t with m_tlbMissesMonitor := t.m_tlbMissesMonitor.disconnect.assign }
  else t

/-! ## Module-transition gate and event handlers -/

/-- The function `MemoryTracer::forceDisconnect`: the updated object and the
returned flag. -/
def forceDisconnect (t : MemoryTracer) (state : S2EExecutionState) : MemoryTracer × Bool :=
  if t.m_execDetector.isSome && t.m_monitorModules && !state.currentDescriptor then
    (t.disconnectMemoryTracing, true)
  else
    (t, false)

/-- The function `MemoryTracer::onAfterSymbolicDataMemoryAccess`. -/
def onAfterSymbolicDataMemoryAccess (K : Constants) (t : MemoryTracer)
    (state : S2EExecutionState) (address hostAddress value : Expr) (flags : Nat) :
    Option MemoryTracer :=
  if (t.forceDisconnect state).2 then
    some (t.forceDisconnect state).1
  else
    (t.forceDisconnect state).1.traceSymbolicDataMemoryAccess K state address hostAddress value flags

/-- The function `MemoryTracer::onConcreteDataMemoryAccess`. -/
def onConcreteDataMemoryAccess (K : Constants) (t : MemoryTracer) (state : S2EExecutionState)
    (address value size flags : Nat) : MemoryTracer :=
  if (t.forceDisconnect state).2 then
    (t.forceDisconnect state).1
  else
    (t.forceDisconnect state).1.traceConcreteDataMemoryAccess K state address value size flags

/-- The function `MemoryTracer::onModuleTransition`; a module pointer is `none`
when it is null. -/
def onModuleTransition (t : MemoryTracer) (_state : S2EExecutionState)
    (_prevModule nextModule : Option ModuleDescriptor) : MemoryTracer :=
  if nextModule.isSome && !t.m_symbolicMemoryMonitor.connected then
    t.connectMemoryTracing
  else
    t.disconnectMemoryTracing

/-- The function `MemoryTracer::onModuleTranslateBlockStart`: one more slot on the
execution signal of the block. -/
def onModuleTranslateBlockStart (t : MemoryTracer) (_state : S2EExecutionState)
    (_module : ModuleDescriptor) (_pc : Nat) : MemoryTracer :=
  { t with executeBlockStartSlots := t.executeBlockStartSlots + 1 }

/-- The function `MemoryTracer::onExecuteBlockStart`. -/
def onExecuteBlockStart (t : MemoryTracer) (_state : S2EExecutionState) (_pc : Nat) :
    MemoryTracer :=
  t.connectMemoryTracing

/-- The function `MemoryTracer::onTlbMiss`; `appended` is the result of
`item.AppendToString(&data)`. -/
def onTlbMiss (t : MemoryTracer) (state : S2EExecutionState) (addr : Nat) (is_write : Bool)
    (appended : Bool) : MemoryTracer :=
  let item : PbTraceSimpleMemoryAccess := { pc := state.pc, address := addr, is_write := is_write }
  if !appended then
    t
  else
    { t with m_tracer := t.m_tracer ++ [⟨.TRACE_TLBMISS, .simpleMemoryAccess item⟩] }

/-- The function `MemoryTracer::onPageFault`. -/
def onPageFault (t : MemoryTracer) (state : S2EExecutionState) (addr : Nat) (is_write : Bool) :
    MemoryTracer :=
  let item : PbTraceSimpleMemoryAccess := { pc := state.pc, address := addr, is_write := is_write }
  { t with m_tracer := t.m_tracer ++ [⟨.TRACE_PAGEFAULT, .simpleMemoryAccess item⟩] }

/-- The function `MemoryTracer::onTimer`; the tick counter is a 64-bit unsigned
integer, compared before it is incremented. -/
def onTimer (t : MemoryTracer) : MemoryTracer :=
  let elapsed := t.m_elapsedTics
  let t := { t with m_elapsedTics := (elapsed + 1) % 2 ^ 64 }
  if elapsed < t.m_timeTrigger then
    t
  else
    let t := t.enableTracing
    { t with m_timerConnection := t.m_timerConnection.disconnect }

/-- The function `MemoryTracer::onCustomInstruction`. -/
def onCustomInstruction (K : Constants) (t : MemoryTracer) (_state : S2EExecutionState)
    (opcode : Nat) : MemoryTracer :=
  if !K.OPCODE_CHECK opcode K.MEMORY_TRACER_OPCODE then
    t
  else
    let opcode := opcode >>> 16
    let op := opcode &&& 0xFF
    if op = K.Enable then
      t.enableTracing
    else if op = K.Disable then
      t.disableTracing
    else
      t

/-- The function `MemoryTracer::getProperty`: the object and the returned flag. -/
def getProperty (t : MemoryTracer) (_state : S2EExecutionState) (_name : String) :
    MemoryTracer × Bool :=
  (t, false)

/-- The function `MemoryTracer::setProperty`: the updated object and the returned
flag. -/
def setProperty (t : MemoryTracer) (_state : S2EExecutionState) (name value : String) :
    MemoryTracer × Bool :=
  if name = "trace" then
    if value = "1" then (t.enableTracing, true) else (t.disableTracing, true)
  else
    (t, false)

end MemoryTracer

/-! ## Initialisation -/

/-- The values `ConfigFile` returns for the keys of the plugin; `timeTrigger` is
`none` when the key is absent (`hasTimeTrigger` false, default `0`). -/
structure Config where
  monitorModules : Bool
  monitorStack : Bool
  catchAccessesAbove : Nat
  catchAccessesBelow : Nat
  traceHostAddresses : Bool
  debugObjectStates : Bool
  timeTrigger : Option Nat
  manualTrigger : Bool
  monitorMemory : Bool
  monitorPageFaults : Bool
  monitorTlbMisses : Bool
deriving DecidableEq, Repr

/-- The function `MemoryTracer::initialize` on a new plugin object: `execDetector`
is the result of `getPlugin<ModuleExecutionDetector>()`, `tracer` the log of the
`ExecutionTracer`. The result is `none` when the plugin calls `exit(-1)`. -/
def MemoryTracer.initialise (cfg : Config) (execDetector : Option ModuleExecutionDetector)
    (tracer : List TraceEntry) : Option MemoryTracer :=
  if cfg.monitorModules && !execDetector.isSome then
    none
  else
    let t : MemoryTracer :=
      { m_tracer := tracer
        m_execDetector := execDetector
        m_monitorModules := cfg.monitorModules
        m_monitorStack := cfg.monitorStack
        m_catchAbove := cfg.catchAccessesAbove % 2 ^ 64
        m_catchBelow := cfg.catchAccessesBelow % 2 ^ 64
        m_traceHostAddresses := cfg.traceHostAddresses
        m_debugObjectStates := cfg.debugObjectStates
        m_timeTrigger := (cfg.timeTrigger.getD 0) % 2 ^ 64
        m_elapsedTics := 0
        m_monitorMemory := cfg.monitorMemory
        m_monitorPageFaults := cfg.monitorPageFaults
        m_monitorTlbMisses := cfg.monitorTlbMisses
        m_symbolicMemoryMonitor := ⟨false, 0⟩
        m_concreteMemoryMonitor := ⟨false, 0⟩
        m_pageFaultsMonitor := ⟨false, 0⟩
        m_tlbMissesMonitor := ⟨false, 0⟩
        m_timerConnection := ⟨false, 0⟩
        customInstructionSlots := 0
        executeBlockStartSlots := 0 }
    if cfg.timeTrigger.isSome then
      some { t with m_timerConnection := t.m_timerConnection.assign }
    else if cfg.manualTrigger then
      some { t with customInstructionSlots := t.customInstructionSlots + 1 }
    else
      some t.enableTracing

/-! ## Signal emission -/

/-- The emission of a signal on which the plugin has `slots` slots for one handler:
the handler runs once for each slot, one run after the other. -/
def emit (slots : Nat) (handler : MemoryTracer → MemoryTracer) (t : MemoryTracer) :
    MemoryTracer :=
  handler^[slots] t

/-- The number of slots the plugin has on the signal `onModuleTransition` of the
detector. -/
def MemoryTracer.moduleTransitionSlots (t : MemoryTracer) : Nat :=
  match t.m_execDetector with
  | some d => d.onModuleTransition
  | none => 0

/-- The number of slots the plugin has on the signal `onModuleTranslateBlockStart`
of the detector. -/
def MemoryTracer.moduleTranslateBlockStartSlots (t : MemoryTracer) : Nat :=
  match t.m_execDetector with
  | some d => d.onModuleTranslateBlockStart
  | none => 0

/-- A module-transition notification: the detector emits `onModuleTransition`, which
runs `MemoryTracer::onModuleTransition` once for each slot `enableTracing` has
registered. -/
def MemoryTracer.notifyModuleTransition (t : MemoryTracer) (state : S2EExecutionState)
    (prevModule nextModule : Option ModuleDescriptor) : MemoryTracer :=
  emit t.moduleTransitionSlots (fun t1 => t1.onModuleTransition state prevModule nextModule) t

/-- A translate-block notification: the detector emits `onModuleTranslateBlockStart`,
which runs `MemoryTracer::onModuleTranslateBlockStart` once for each registered
slot. -/
def MemoryTracer.notifyModuleTranslateBlockStart (t : MemoryTracer)
    (state : S2EExecutionState) (module : ModuleDescriptor) (pc : Nat) : MemoryTracer :=
  emit t.moduleTranslateBlockStartSlots
    (fun t1 => t1.onModuleTranslateBlockStart state module pc) t

/-! ## Sequences of calls -/

/-- One event after initialisation: a public operation of the plugin, or the
emission of a signal the plugin listens to. -/
inductive Call where
  | enableTracing
  | disableTracing
  | connectMemoryTracing
  | disconnectMemoryTracing
  | onModuleTransition (state : S2EExecutionState) (prevModule nextModule : Option ModuleDescriptor)
  | onModuleTranslateBlockStart (state : S2EExecutionState) (module : ModuleDescriptor) (pc : Nat)
  | onExecuteBlockStart (state : S2EExecutionState) (pc : Nat)
  | onAfterSymbolicDataMemoryAccess (state : S2EExecutionState)
      (address hostAddress value : Expr) (flags : Nat)
  | onConcreteDataMemoryAccess (state : S2EExecutionState) (address value size flags : Nat)
  | onTlbMiss (state : S2EExecutionState) (addr : Nat) (is_write appended : Bool)
  | onPageFault (state : S2EExecutionState) (addr : Nat) (is_write : Bool)
  | onTimer
  | onCustomInstruction (state : S2EExecutionState) (opcode : Nat)
  | setProperty (state : S2EExecutionState) (name value : String)
  | getProperty (state : S2EExecutionState) (name : String)

/-- Whether the event reaches the plugin in state `t`: an emission only does when a
slot is registered on its signal; the operations and the property interface can
always be called. -/
def Call.possible (t : MemoryTracer) : Call → Bool
  | .onModuleTransition _ _ _ =>
      match t.m_execDetector with
      | some d => decide (0 < d.onModuleTransition)
      | none => false
  | .onModuleTranslateBlockStart _ _ _ =>
      match t.m_execDetector with
      | some d => decide (0 < d.onModuleTranslateBlockStart)
      | none => false
  | .onExecuteBlockStart _ _ => decide (0 < t.executeBlockStartSlots)
  | .onAfterSymbolicDataMemoryAccess _ _ _ _ _ => decide (0 < t.m_symbolicMemoryMonitor.slots)
  | .onConcreteDataMemoryAccess _ _ _ _ _ => decide (0 < t.m_concreteMemoryMonitor.slots)
  | .onTlbMiss _ _ _ _ => decide (0 < t.m_tlbMissesMonitor.slots)
  | .onPageFault _ _ _ => decide (0 < t.m_pageFaultsMonitor.slots)
  | .onTimer => decide (0 < t.m_timerConnection.slots)
  | .onCustomInstruction _ _ => decide (0 < t.customInstructionSlots)
  | _ => true

/-- The state after one event; `none` when it stops the process. The two signals
of the module detector run their handler once for each registered slot
(`enableTracing` adds a slot on every call). On the memory, page-fault, TLB-miss,
timer and custom-instruction signals the plugin never holds more than one slot, and
the block-start handler is `connectMemoryTracing`, of which any number of runs is
the same as one, so one run of the handler is the emission. -/
def Call.apply (K : Constants) (t : MemoryTracer) : Call → Option MemoryTracer
  | .enableTracing => some t.enableTracing
  | .disableTracing => some t.disableTracing
  | .connectMemoryTracing => some t.connectMemoryTracing
  | .disconnectMemoryTracing => some t.disconnectMemoryTracing
  | .onModuleTransition state p n => some (t.notifyModuleTransition state p n)
  | .onModuleTranslateBlockStart state m pc =>
      some (t.notifyModuleTranslateBlockStart state m pc)
  | .onExecuteBlockStart state pc => some (t.onExecuteBlockStart state pc)
  | .onAfterSymbolicDataMemoryAccess state a h v f =>
      t.onAfterSymbolicDataMemoryAccess K state a h v f
  | .onConcreteDataMemoryAccess state a v s f => some (t.onConcreteDataMemoryAccess K state a v s f)
  | .onTlbMiss state a w ok => some (t.onTlbMiss state a w ok)
  | .onPageFault state a w => some (t.onPageFault state a w)
  | .onTimer => some t.onTimer
  | .onCustomInstruction state opcode => some (t.onCustomInstruction K state opcode)
  | .setProperty state name value => some (t.setProperty state name value).1
  | .getProperty state name => some (t.getProperty state name).1

/-- The state after a sequence of calls, each of which must be possible when it is
made; `none` when one is not, or stops the process. -/
def runCalls (K : Constants) (t : MemoryTracer) : List Call → Option MemoryTracer
  | [] => some t
  | c :: cs =>
      if c.possible t then
        match c.apply K t with
        | some t1 => runCalls K t1 cs
        | none => none
      else
        none

/-- Calling `connectMemoryTracing()` `n` times. -/
def connectMemoryTracingTimes (n : Nat) (t : MemoryTracer) : MemoryTracer :=
  MemoryTracer.connectMemoryTracing^[n] t

/-! ## Sample values -/

/-- A choice of the constants, with one flag bit per facet, used in examples. -/
def sampleConstants : Constants :=
  { ConcolicMode := false
    MEM_TRACE_FLAG_WRITE := 2
    MEM_TRACE_FLAG_IO := 1
    EXECTRACE_MEM_WRITE := 1
    EXECTRACE_MEM_IO := 2
    EXECTRACE_MEM_SYMBVAL := 4
    EXECTRACE_MEM_SYMBADDR := 8
    EXECTRACE_MEM_HASHOSTADDR := 16
    EXECTRACE_MEM_SYMBHOSTADDR := 32
    EXECTRACE_MEM_OBJECTSTATE := 64
    SE_RAM_OBJECT_MASK := 2 ^ 64 - 2 ^ 12
    OPCODE_CHECK := fun operand opcode => (operand >>> 8) &&& 0xFF == opcode
    MEMORY_TRACER_OPCODE := 0xAC
    Enable := 0
    Disable := 1 }

/-- The bit positions of `sampleConstants`. -/
def sampleBits : FlagBits :=
  { write := 0, io := 1, symbVal := 2, symbAddr := 3, hasHostAddr := 4, symbHostAddr := 5,
    objectState := 6 }

/-- An execution state at program counter `pc`, inside a module, whose evaluator
gives every expression the value `7` and whose address space has no object. -/
def sampleState (pc : Nat) : S2EExecutionState :=
  { pc := pc, currentDescriptor := true, evaluate := fun _ => 7, findObject := fun _ => none }

/-- A configuration with every option off and no trigger. -/
def plainConfig : Config :=
  { monitorModules := false, monitorStack := false, catchAccessesAbove := 0,
    catchAccessesBelow := 0, traceHostAddresses := false, debugObjectStates := false,
    timeTrigger := none, manualTrigger := false, monitorMemory := false,
    monitorPageFaults := false, monitorTlbMisses := false }

/-- A tracer with nothing configured and nothing connected. -/
def idleTracer : MemoryTracer :=
  { m_tracer := [], m_execDetector := none, m_monitorModules := false, m_monitorStack := false,
    m_catchAbove := 0, m_catchBelow := 0, m_traceHostAddresses := false,
    m_debugObjectStates := false, m_timeTrigger := 0, m_elapsedTics := 0,
    m_monitorMemory := false, m_monitorPageFaults := false, m_monitorTlbMisses := false,
    m_symbolicMemoryMonitor := ⟨false, 0⟩, m_concreteMemoryMonitor := ⟨false, 0⟩,
    m_pageFaultsMonitor := ⟨false, 0⟩, m_tlbMissesMonitor := ⟨false, 0⟩,
    m_timerConnection := ⟨false, 0⟩, customInstructionSlots := 0, executeBlockStartSlots := 0 }

/-- A configuration with memory monitoring restricted to modules and no trigger. -/
def gatedConfig : Config :=
  { plainConfig with monitorModules := true, monitorMemory := true }

/-- The tracer configured by `gatedConfig`, with a module detector on which nothing
is registered yet, before `enableTracing` has run. -/
def gatedTracer : MemoryTracer :=
  { idleTracer with
    m_execDetector := some ⟨0, 0⟩, m_monitorModules := true, m_monitorMemory := true }

/-- No connection member has a detached slot: every slot the plugin registered
through a handle is the one the handle refers to. -/
def MemoryTracer.NoDetached (t : MemoryTracer) : Prop :=
  t.m_symbolicMemoryMonitor.detached = 0 ∧ t.m_concreteMemoryMonitor.detached = 0 ∧
  t.m_pageFaultsMonitor.detached = 0 ∧ t.m_tlbMissesMonitor.detached = 0 ∧
  t.m_timerConnection.detached = 0

/-- The timer callback run `k` times. -/
def onTimerTimes (k : Nat) (t : MemoryTracer) : MemoryTracer :=
  MemoryTracer.onTimer^[k] t

/-- A configuration with memory monitoring and a time trigger of three ticks. -/
def timerConfig : Config :=
  { plainConfig with timeTrigger := some 3, monitorMemory := true }

/-- The tracer `initialize` builds from `timerConfig`: nothing is connected but the
timer listener. -/
def timerTracer : MemoryTracer :=
  { idleTracer with m_timeTrigger := 3, m_monitorMemory := true, m_timerConnection := ⟨true, 0⟩ }

/-- Module-gating is only set together with a module detector (`initialize` exits
otherwise). -/
def MemoryTracer.GatingSound (t : MemoryTracer) : Prop :=
  t.m_monitorModules = true → t.m_execDetector.isSome = true

/-! ## Theorems -/

namespace MemoryTracer

/-! ### Auxiliary facts -/

theorem emit_preserves (P : MemoryTracer → Prop) (handler : MemoryTracer → MemoryTracer)
    (hstep : ∀ t, P t → P (handler t)) (k : Nat) (t : MemoryTracer) (h : P t) :
    P (emit k handler t) := by
  unfold emit
  induction k with
  | zero => exact h
  | succ j ih =>
    rw [Function.iterate_succ_apply']
    exact hstep _ ih

theorem testFlag_two_pow (w i : Nat) : testFlag w (2 ^ i) = w.testBit i := by
  have h : w &&& 2 ^ i = (if w.testBit i then 2 ^ i else 0) := by
    apply Nat.eq_of_testBit_eq
    intro j
    by_cases hij : i = j
    · subst hij
      by_cases hb : w.testBit i <;> simp [hb, Nat.testBit_two_pow]
    · by_cases hb : w.testBit i <;> simp [hb, hij, Nat.testBit_two_pow]
  unfold testFlag
  rw [h]
  by_cases hb : w.testBit i <;> simp [hb]

/-! ### Trigger policy -/

/-- C1: for every `catchAbove`, `catchBelow` and program counter, `decideTracing`
returns false if and only if (`catchAbove ≠ 0` and `pc ≤ catchAbove`) or
(`catchBelow ≠ 0` and `pc > catchBelow`), and true otherwise; with
`catchAbove = 0x1000` and `catchBelow = 0`, `pc = 0x1000` gives false and
`pc = 0x1001` gives true. -/
theorem decideTracing_false_iff (t : MemoryTracer) (state : S2EExecutionState) :
    (t.decideTracing state = false ↔
      ((t.m_catchAbove ≠ 0 ∧ state.pc ≤ t.m_catchAbove) ∨
        (t.m_catchBelow ≠ 0 ∧ state.pc > t.m_catchBelow))) ∧
    (¬ ((t.m_catchAbove ≠ 0 ∧ state.pc ≤ t.m_catchAbove) ∨
        (t.m_catchBelow ≠ 0 ∧ state.pc > t.m_catchBelow)) → t.decideTracing state = true) ∧
    ({ idleTracer with m_catchAbove := 0x1000, m_catchBelow := 0 }.decideTracing
        (sampleState 0x1000) = false) ∧
    ({ idleTracer with m_catchAbove := 0x1000, m_catchBelow := 0 }.decideTracing
        (sampleState 0x1001) = true) := by
  have key : t.decideTracing state = false ↔
      ((t.m_catchAbove ≠ 0 ∧ state.pc ≤ t.m_catchAbove) ∨
        (t.m_catchBelow ≠ 0 ∧ state.pc > t.m_catchBelow)) := by
    unfold decideTracing
    by_cases ha : t.m_catchAbove = 0 <;> by_cases hb : t.m_catchBelow = 0 <;>
      by_cases h1 : state.pc ≤ t.m_catchAbove <;> by_cases h2 : t.m_catchBelow < state.pc <;>
      simp [ha, hb, h1, h2]
  refine ⟨key, ?_, by decide, by decide⟩
  intro h
  cases hd : t.decideTracing state
  · exact absurd (key.mp hd) h
  · rfl

/-! ### Record builder -/

theorem traceSymbolic_of_assert (K : Constants) (t : MemoryTracer) (state : S2EExecutionState)
    (address hostAddress value : Expr) (flags : Nat)
    (hscope : t.decideTracing state = true)
    (hassert : ownershipAssertHolds K t state hostAddress flags) :
    ∃ item : PbTraceMemoryAccess,
      t.traceSymbolicDataMemoryAccess K state address hostAddress value flags =
        some { t with m_tracer := t.m_tracer ++ [⟨.TRACE_MEMORY, .memoryAccess item⟩] } ∧
      item.pc = state.pc ∧
      item.address =
        address.constantOr (if K.ConcolicMode then state.evaluate address else 0xdeadbeef) ∧
      item.value =
        value.constantOr (if K.ConcolicMode then state.evaluate value else 0xdeadbeef) ∧
      item.size = Expr.getMinBytesForWidth value.getWidth ∧
      item.host_address = hostAddress.constantOr 0xDEADBEEF ∧
      item.flags =
        (((((((if testFlag flags K.MEM_TRACE_FLAG_WRITE then K.EXECTRACE_MEM_WRITE else 0) |||
          (if testFlag flags K.MEM_TRACE_FLAG_IO then K.EXECTRACE_MEM_IO else 0)) |||
          (if t.m_traceHostAddresses then K.EXECTRACE_MEM_HASHOSTADDR else 0)) |||
          (if t.m_traceHostAddresses then K.EXECTRACE_MEM_OBJECTSTATE else 0)) |||
          (if address.isConstant then 0 else K.EXECTRACE_MEM_SYMBADDR)) |||
          (if value.isConstant then 0 else K.EXECTRACE_MEM_SYMBVAL)) |||
          (if hostAddress.isConstant then 0 else K.EXECTRACE_MEM_SYMBHOSTADDR)) := by
  have hfail : (t.m_traceHostAddresses &&
      (match state.findObject (hostAddress.constantOr 0xDEADBEEF &&& K.SE_RAM_OBJECT_MASK) with
       | some os => testFlag flags K.MEM_TRACE_FLAG_WRITE && t.m_debugObjectStates && !os.ownedByUs
       | none => false)) = false := by
    cases hfo : state.findObject (hostAddress.constantOr 0xDEADBEEF &&& K.SE_RAM_OBJECT_MASK) with
    | none => simp
    | some os =>
      by_cases h1 : t.m_traceHostAddresses = true
      · by_cases h2 : testFlag flags K.MEM_TRACE_FLAG_WRITE = true
        · by_cases h3 : t.m_debugObjectStates = true
          · have := hassert h1 h2 h3 os hfo
            simp [this]
          · simp [h3]
        · simp [h2]
      · simp [h1]
  unfold traceSymbolicDataMemoryAccess
  simp only [hscope, hfail]
  refine ⟨_, rfl, rfl, rfl, rfl, rfl, rfl, ?_⟩
  by_cases h1 : testFlag flags K.MEM_TRACE_FLAG_WRITE = true <;>
    by_cases h2 : testFlag flags K.MEM_TRACE_FLAG_IO = true <;>
    by_cases h3 : t.m_traceHostAddresses = true <;>
    by_cases h4 : address.isConstant = true <;>
    by_cases h5 : value.isConstant = true <;>
    by_cases h6 : hostAddress.isConstant = true <;>
    simp [h1, h2, h3, h4, h5, h6]

theorem testBit_ite_two_pow (c : Bool) (k i : Nat) :
    (if c = true then 2 ^ k else 0).testBit i = (c && decide (k = i)) := by
  cases c <;> simp [Nat.testBit_two_pow]

theorem testBit_ite_zero_two_pow (c : Bool) (k i : Nat) :
    (if c = true then 0 else 2 ^ k).testBit i = (!c && decide (k = i)) := by
  cases c <;> simp [Nat.testBit_two_pow]

theorem sampleConstants_layout (concolic : Bool) :
    Constants.Layout { sampleConstants with ConcolicMode := concolic } sampleBits := by
  simp [Constants.Layout, sampleConstants, sampleBits, FlagBits.toList]

theorem traceSymbolic_record (K : Constants) (b : FlagBits) (hK : K.Layout b)
    (t : MemoryTracer) (state : S2EExecutionState) (address hostAddress value : Expr)
    (flags : Nat) (hscope : t.decideTracing state = true)
    (hassert : ownershipAssertHolds K t state hostAddress flags) :
    ∃ item : PbTraceMemoryAccess,
      t.traceSymbolicDataMemoryAccess K state address hostAddress value flags =
        some { t with m_tracer := t.m_tracer ++ [⟨.TRACE_MEMORY, .memoryAccess item⟩] } ∧
      item.address =
        address.constantOr (if K.ConcolicMode then state.evaluate address else 0xdeadbeef) ∧
      item.value =
        value.constantOr (if K.ConcolicMode then state.evaluate value else 0xdeadbeef) ∧
      item.host_address = hostAddress.constantOr 0xDEADBEEF ∧
      testFlag item.flags K.EXECTRACE_MEM_WRITE = testFlag flags K.MEM_TRACE_FLAG_WRITE ∧
      testFlag item.flags K.EXECTRACE_MEM_IO = testFlag flags K.MEM_TRACE_FLAG_IO ∧
      testFlag item.flags K.EXECTRACE_MEM_HASHOSTADDR = t.m_traceHostAddresses ∧
      testFlag item.flags K.EXECTRACE_MEM_OBJECTSTATE = t.m_traceHostAddresses ∧
      testFlag item.flags K.EXECTRACE_MEM_SYMBADDR = !address.isConstant ∧
      testFlag item.flags K.EXECTRACE_MEM_SYMBVAL = !value.isConstant ∧
      testFlag item.flags K.EXECTRACE_MEM_SYMBHOSTADDR = !hostAddress.isConstant ∧
      ∀ i, item.flags.testBit i = true → i ∈ b.toList := by
  obtain ⟨item, hres, -, haddr, hval, -, hhost, hflags⟩ :=
    traceSymbolic_of_assert K t state address hostAddress value flags hscope hassert
  obtain ⟨hW, hIO, hSV, hSA, hHH, hSH, hOS, hnd⟩ := hK
  simp only [FlagBits.toList, List.nodup_cons, List.mem_cons, List.mem_singleton,
    List.not_mem_nil, not_or, List.nodup_nil, or_false, not_false_eq_true, and_true] at hnd
  obtain ⟨⟨n12, n13, n14, n15, n16, n17⟩, ⟨n23, n24, n25, n26, n27⟩, ⟨n34, n35, n36, n37⟩,
    ⟨n45, n46, n47⟩, ⟨n56, n57⟩, n67⟩ := hnd
  refine ⟨item, hres, haddr, hval, hhost, ?_, ?_, ?_, ?_, ?_, ?_, ?_, ?_⟩
  all_goals
    rw [hflags]
    simp only [hW, hIO, hSV, hSA, hHH, hSH, hOS, testFlag_two_pow, Nat.testBit_or,
      testBit_ite_two_pow, testBit_ite_zero_two_pow, FlagBits.toList]
  iterate 7 simp [n12, n13, n14, n15, n16, n17, n23, n24, n25, n26, n27, n34, n35, n36, n37, n45,
    n46, n47, n56, n57, n67, Ne.symm n12, Ne.symm n13, Ne.symm n14, Ne.symm n15, Ne.symm n16,
    Ne.symm n17, Ne.symm n23, Ne.symm n24, Ne.symm n25, Ne.symm n26, Ne.symm n27, Ne.symm n34,
    Ne.symm n35, Ne.symm n36, Ne.symm n37, Ne.symm n45, Ne.symm n46, Ne.symm n47, Ne.symm n56,
    Ne.symm n57, Ne.symm n67]
  · intro i hi
    simp only [Bool.or_eq_true, Bool.and_eq_true, decide_eq_true_eq] at hi
    simp only [List.mem_cons, List.mem_singleton, List.not_mem_nil, or_false]
    rcases hi with (((((⟨-, h⟩ | ⟨-, h⟩) | ⟨-, h⟩) | ⟨-, h⟩) | ⟨-, h⟩) | ⟨-, h⟩) | ⟨-, h⟩ <;>
      simp [← h]

theorem testFlag_eq_true_iff (w f : Nat) :
    testFlag w f = true ↔ ∃ i, w.testBit i = true ∧ f.testBit i = true := by
  unfold testFlag
  constructor
  · intro h
    have hne : w &&& f ≠ 0 := by simpa using h
    obtain ⟨i, hi⟩ := Nat.ne_zero_implies_bit_true hne
    rw [Nat.testBit_and] at hi
    exact ⟨i, by simpa using hi⟩
  · rintro ⟨i, hw, hf⟩
    have hi : (w &&& f).testBit i = true := by rw [Nat.testBit_and, hw, hf]; rfl
    have hne : w &&& f ≠ 0 := by
      intro h0
      rw [h0] at hi
      simp at hi
    simpa using hne

/-- C2: for every in-scope potentially-symbolic access whose address, value and
host address are all constant expressions, in either concolic mode, the emitted
record has the address-symbolic, value-symbolic and host-address-symbolic flags
unset, and its address and value fields (and its host address) are the constants of
the operands. -/
theorem traceSymbolic_all_constant (K : Constants) (b : FlagBits) (hK : K.Layout b)
    (t : MemoryTracer) (state : S2EExecutionState) (a wa h wh v wv flags : Nat)
    (hscope : t.decideTracing state = true)
    (hassert : ownershipAssertHolds K t state (.constant h wh) flags) :
    ∃ item : PbTraceMemoryAccess,
      t.traceSymbolicDataMemoryAccess K state (.constant a wa) (.constant h wh) (.constant v wv)
          flags =
        some { t with m_tracer := t.m_tracer ++ [⟨.TRACE_MEMORY, .memoryAccess item⟩] } ∧
      testFlag item.flags K.EXECTRACE_MEM_SYMBADDR = false ∧
      testFlag item.flags K.EXECTRACE_MEM_SYMBVAL = false ∧
      testFlag item.flags K.EXECTRACE_MEM_SYMBHOSTADDR = false ∧
      item.address = a ∧ item.value = v ∧ item.host_address = h := by
  obtain ⟨item, hres, haddr, hval, hhost, -, -, -, -, hSA, hSV, hSH, -⟩ :=
    traceSymbolic_record K b hK t state (.constant a wa) (.constant h wh) (.constant v wv) flags
      hscope hassert
  exact ⟨item, hres, hSA, hSV, hSH, haddr, hval, hhost⟩

/-- A witness for C2: concolic mode on, all three operands constant. -/
theorem traceSymbolic_all_constant_witness :
    idleTracer.decideTracing (sampleState 5) = true ∧
    ∃ item : PbTraceMemoryAccess,
      idleTracer.traceSymbolicDataMemoryAccess { sampleConstants with ConcolicMode := true }
          (sampleState 5) (.constant 16 32) (.constant 4096 64) (.constant 9 8) 2 =
        some { idleTracer with
          m_tracer := idleTracer.m_tracer ++ [⟨.TRACE_MEMORY, .memoryAccess item⟩] } ∧
      testFlag item.flags 8 = false ∧ testFlag item.flags 4 = false ∧
      testFlag item.flags 32 = false ∧
      item.address = 16 ∧ item.value = 9 ∧ item.host_address = 4096 :=
  ⟨by decide,
    traceSymbolic_all_constant { sampleConstants with ConcolicMode := true } sampleBits
      (sampleConstants_layout true) idleTracer (sampleState 5) 16 32 4096 64 9 8 2 (by decide)
      (by intro h; exact absurd h (by decide))⟩

/-- C3: for every in-scope potentially-symbolic access whose value operand is not a
constant, with concolic mode off, the value field of the emitted record is the
sentinel `0xdeadbeef` and its value-symbolic flag is set, whatever the address and
the host address are. -/
theorem traceSymbolic_symbolic_value_sentinel (K : Constants) (t : MemoryTracer)
    (state : S2EExecutionState) (address hostAddress value : Expr) (flags : Nat)
    (hbit : K.EXECTRACE_MEM_SYMBVAL ≠ 0)
    (hvalue : value.isConstant = false)
    (hconcolic : K.ConcolicMode = false)
    (hscope : t.decideTracing state = true)
    (hassert : ownershipAssertHolds K t state hostAddress flags) :
    ∃ item : PbTraceMemoryAccess,
      t.traceSymbolicDataMemoryAccess K state address hostAddress value flags =
        some { t with m_tracer := t.m_tracer ++ [⟨.TRACE_MEMORY, .memoryAccess item⟩] } ∧
      item.value = 0xdeadbeef ∧
      testFlag item.flags K.EXECTRACE_MEM_SYMBVAL = true := by
  obtain ⟨item, hres, -, -, hval, -, -, hflags⟩ :=
    traceSymbolic_of_assert K t state address hostAddress value flags hscope hassert
  refine ⟨item, hres, ?_, ?_⟩
  · rw [hval, hconcolic]
    cases value with
    | constant c w => simp [Expr.isConstant] at hvalue
    | symbolic id w => rfl
  · obtain ⟨i, hi⟩ := Nat.ne_zero_implies_bit_true hbit
    rw [testFlag_eq_true_iff]
    refine ⟨i, ?_, hi⟩
    rw [hflags]
    simp [Nat.testBit_or, hvalue, hi]

/-- A witness for C3: a symbolic value next to a symbolic address and a constant
host address, concolic mode off. -/
theorem traceSymbolic_symbolic_value_sentinel_witness :
    sampleConstants.EXECTRACE_MEM_SYMBVAL ≠ 0 ∧
    (Expr.symbolic 1 32).isConstant = false ∧
    sampleConstants.ConcolicMode = false ∧
    idleTracer.decideTracing (sampleState 5) = true ∧
    ∃ item : PbTraceMemoryAccess,
      idleTracer.traceSymbolicDataMemoryAccess sampleConstants (sampleState 5)
          (.symbolic 0 64) (.constant 4096 64) (.symbolic 1 32) 0 =
        some { idleTracer with
          m_tracer := idleTracer.m_tracer ++ [⟨.TRACE_MEMORY, .memoryAccess item⟩] } ∧
      item.value = 0xdeadbeef ∧
      testFlag item.flags sampleConstants.EXECTRACE_MEM_SYMBVAL = true :=
  ⟨by decide, by decide, by decide, by decide,
    traceSymbolic_symbolic_value_sentinel sampleConstants idleTracer (sampleState 5)
      (.symbolic 0 64) (.constant 4096 64) (.symbolic 1 32) 0 (by decide) (by decide) (by decide)
      (by decide) (by intro h; exact absurd h (by decide))⟩

/-- C5: for every in-scope potentially-symbolic access the flag word of the emitted
record has the write bit iff the input write flag is set, the I/O bit iff the input
I/O flag is set, the host-address-included bit and the object-state-included bit iff
`traceHostAddresses` is configured, the address-symbolic, value-symbolic and
host-address-symbolic bits iff the respective operand is not a constant, and no
other bit. -/
theorem traceSymbolic_flag_bits (K : Constants) (b : FlagBits) (hK : K.Layout b)
    (t : MemoryTracer) (state : S2EExecutionState) (address hostAddress value : Expr)
    (flags : Nat) (hscope : t.decideTracing state = true)
    (hassert : ownershipAssertHolds K t state hostAddress flags) :
    ∃ item : PbTraceMemoryAccess,
      t.traceSymbolicDataMemoryAccess K state address hostAddress value flags =
        some { t with m_tracer := t.m_tracer ++ [⟨.TRACE_MEMORY, .memoryAccess item⟩] } ∧
      testFlag item.flags K.EXECTRACE_MEM_WRITE = testFlag flags K.MEM_TRACE_FLAG_WRITE ∧
      testFlag item.flags K.EXECTRACE_MEM_IO = testFlag flags K.MEM_TRACE_FLAG_IO ∧
      testFlag item.flags K.EXECTRACE_MEM_HASHOSTADDR = t.m_traceHostAddresses ∧
      testFlag item.flags K.EXECTRACE_MEM_OBJECTSTATE = t.m_traceHostAddresses ∧
      testFlag item.flags K.EXECTRACE_MEM_SYMBADDR = !address.isConstant ∧
      testFlag item.flags K.EXECTRACE_MEM_SYMBVAL = !value.isConstant ∧
      testFlag item.flags K.EXECTRACE_MEM_SYMBHOSTADDR = !hostAddress.isConstant ∧
      ∀ i, item.flags.testBit i = true → i ∈ b.toList := by
  obtain ⟨item, hres, -, -, -, h1, h2, h3, h4, h5, h6, h7, h8⟩ :=
    traceSymbolic_record K b hK t state address hostAddress value flags hscope hassert
  exact ⟨item, hres, h1, h2, h3, h4, h5, h6, h7, h8⟩

/-- A witness for C5: a write with host addresses traced, a symbolic address and
constant value and host address. -/
theorem traceSymbolic_flag_bits_witness :
    Constants.Layout { sampleConstants with ConcolicMode := true } sampleBits ∧
    { idleTracer with m_traceHostAddresses := true }.decideTracing (sampleState 5) = true ∧
    ∃ item : PbTraceMemoryAccess,
      { idleTracer with m_traceHostAddresses := true }.traceSymbolicDataMemoryAccess
          { sampleConstants with ConcolicMode := true } (sampleState 5)
          (.symbolic 0 64) (.constant 4096 64) (.constant 9 8) 2 =
        some { idleTracer with
          m_traceHostAddresses := true
          m_tracer := idleTracer.m_tracer ++ [⟨.TRACE_MEMORY, .memoryAccess item⟩] } ∧
      testFlag item.flags 1 = testFlag 2 2 ∧
      testFlag item.flags 2 = testFlag 2 1 ∧
      testFlag item.flags 16 = true ∧
      testFlag item.flags 64 = true ∧
      testFlag item.flags 8 = !(Expr.symbolic 0 64).isConstant ∧
      testFlag item.flags 4 = !(Expr.constant 9 8).isConstant ∧
      testFlag item.flags 32 = !(Expr.constant 4096 64).isConstant ∧
      ∀ i, item.flags.testBit i = true → i ∈ sampleBits.toList :=
  ⟨sampleConstants_layout true, by decide,
    traceSymbolic_flag_bits { sampleConstants with ConcolicMode := true } sampleBits
      (sampleConstants_layout true) { idleTracer with m_traceHostAddresses := true }
      (sampleState 5) (.symbolic 0 64) (.constant 4096 64) (.constant 9 8) 2 (by decide)
      (by intro _ _ _ os hos; exact absurd hos (by simp [sampleState]))⟩

/-- C4, as the code has it: for every in-scope potentially-symbolic access, a
non-constant address or value operand gives a record field equal to the witness of
the evaluator when concolic mode is on and to the sentinel `0xdeadbeef` when it is
off; a non-constant host address gives the host-address field `0xdeadbeef` in both
modes. -/
theorem traceSymbolic_nonconstant_fields (K : Constants) (t : MemoryTracer)
    (state : S2EExecutionState) (address hostAddress value : Expr) (flags : Nat)
    (hscope : t.decideTracing state = true)
    (hassert : ownershipAssertHolds K t state hostAddress flags) :
    ∃ item : PbTraceMemoryAccess,
      t.traceSymbolicDataMemoryAccess K state address hostAddress value flags =
        some { t with m_tracer := t.m_tracer ++ [⟨.TRACE_MEMORY, .memoryAccess item⟩] } ∧
      (address.isConstant = false →
        (K.ConcolicMode = true → item.address = state.evaluate address) ∧
        (K.ConcolicMode = false → item.address = 0xdeadbeef)) ∧
      (value.isConstant = false →
        (K.ConcolicMode = true → item.value = state.evaluate value) ∧
        (K.ConcolicMode = false → item.value = 0xdeadbeef)) ∧
      (hostAddress.isConstant = false → item.host_address = 0xdeadbeef) := by
  obtain ⟨item, hres, -, haddr, hval, -, hhost, -⟩ :=
    traceSymbolic_of_assert K t state address hostAddress value flags hscope hassert
  refine ⟨item, hres, ?_, ?_, ?_⟩
  · intro hc
    cases address with
    | constant c w => simp [Expr.isConstant] at hc
    | symbolic id w =>
      constructor <;> intro hm <;> simp [haddr, hm, Expr.constantOr]
  · intro hc
    cases value with
    | constant c w => simp [Expr.isConstant] at hc
    | symbolic id w =>
      constructor <;> intro hm <;> simp [hval, hm, Expr.constantOr]
  · intro hc
    cases hostAddress with
    | constant c w => simp [Expr.isConstant] at hc
    | symbolic id w => simp [hhost, Expr.constantOr]

/-- A witness for the amended C4: all three operands symbolic, concolic mode on. -/
theorem traceSymbolic_nonconstant_fields_witness :
    idleTracer.decideTracing (sampleState 5) = true ∧
    ∃ item : PbTraceMemoryAccess,
      idleTracer.traceSymbolicDataMemoryAccess { sampleConstants with ConcolicMode := true }
          (sampleState 5) (.symbolic 0 64) (.symbolic 2 64) (.symbolic 1 32) 0 =
        some { idleTracer with
          m_tracer := idleTracer.m_tracer ++ [⟨.TRACE_MEMORY, .memoryAccess item⟩] } ∧
      ((Expr.symbolic 0 64).isConstant = false →
        (true = true → item.address = (sampleState 5).evaluate (.symbolic 0 64)) ∧
        (true = false → item.address = 0xdeadbeef)) ∧
      ((Expr.symbolic 1 32).isConstant = false →
        (true = true → item.value = (sampleState 5).evaluate (.symbolic 1 32)) ∧
        (true = false → item.value = 0xdeadbeef)) ∧
      ((Expr.symbolic 2 64).isConstant = false → item.host_address = 0xdeadbeef) :=
  ⟨by decide,
    traceSymbolic_nonconstant_fields { sampleConstants with ConcolicMode := true } idleTracer
      (sampleState 5) (.symbolic 0 64) (.symbolic 2 64) (.symbolic 1 32) 0 (by decide)
      (by intro h; exact absurd h (by decide))⟩

/-- C4 as stated fails for the host address: in concolic mode, for an in-scope
access with a non-constant host address whose evaluator witness is `7`, the record
that is emitted has the host-address field `0xdeadbeef`, not `7`. -/
theorem traceSymbolic_hostAddress_not_evaluated :
    ({ sampleConstants with ConcolicMode := true } : Constants).ConcolicMode = true ∧
    idleTracer.decideTracing (sampleState 5) = true ∧
    (Expr.symbolic 2 64).isConstant = false ∧
    (sampleState 5).evaluate (.symbolic 2 64) = 7 ∧
    ∃ item : PbTraceMemoryAccess,
      idleTracer.traceSymbolicDataMemoryAccess { sampleConstants with ConcolicMode := true }
          (sampleState 5) (.constant 16 32) (.symbolic 2 64) (.constant 9 8) 0 =
        some { idleTracer with
          m_tracer := idleTracer.m_tracer ++ [⟨.TRACE_MEMORY, .memoryAccess item⟩] } ∧
      item.host_address = 0xdeadbeef ∧
      item.host_address ≠ (sampleState 5).evaluate (.symbolic 2 64) := by
  refine ⟨rfl, by decide, rfl, rfl, ?_⟩
  refine ⟨{ pc := 5, address := 16, value := 9, size := 1, host_address := 0xdeadbeef,
            flags := 32, concrete_buffer := none }, by decide, rfl, by decide⟩

/-- C6: a concrete access at a program counter for which `decideTracing` is false
emits no record; otherwise exactly one MEMORY record is emitted, whose pc, address,
value and size are the inputs, whose host address is 0, and whose flag word has the
write bit iff the input write flag is set, the I/O bit iff the input I/O flag is
set, and no other bit (so none of the symbolic or host-address bits). -/
theorem traceConcrete_record (K : Constants) (b : FlagBits) (hK : K.Layout b)
    (t : MemoryTracer) (state : S2EExecutionState) (address value size flags : Nat) :
    (t.decideTracing state = false →
      t.traceConcreteDataMemoryAccess K state address value size flags = t) ∧
    (t.decideTracing state = true →
      ∃ item : PbTraceMemoryAccess,
        t.traceConcreteDataMemoryAccess K state address value size flags =
          { t with m_tracer := t.m_tracer ++ [⟨.TRACE_MEMORY, .memoryAccess item⟩] } ∧
        item.pc = state.pc ∧ item.address = address ∧ item.value = value ∧
        item.size = size ∧ item.host_address = 0 ∧
        testFlag item.flags K.EXECTRACE_MEM_WRITE = testFlag flags K.MEM_TRACE_FLAG_WRITE ∧
        testFlag item.flags K.EXECTRACE_MEM_IO = testFlag flags K.MEM_TRACE_FLAG_IO ∧
        testFlag item.flags K.EXECTRACE_MEM_SYMBADDR = false ∧
        testFlag item.flags K.EXECTRACE_MEM_SYMBVAL = false ∧
        testFlag item.flags K.EXECTRACE_MEM_SYMBHOSTADDR = false ∧
        testFlag item.flags K.EXECTRACE_MEM_HASHOSTADDR = false ∧
        testFlag item.flags K.EXECTRACE_MEM_OBJECTSTATE = false ∧
        ∀ i, item.flags.testBit i = true → i = b.write ∨ i = b.io) := by
  constructor
  · intro hscope
    simp [traceConcreteDataMemoryAccess, hscope]
  · intro hscope
    obtain ⟨hW, hIO, hSV, hSA, hHH, hSH, hOS, hnd⟩ := hK
    simp only [FlagBits.toList, List.nodup_cons, List.mem_cons, List.mem_singleton,
      List.not_mem_nil, not_or, List.nodup_nil, or_false, not_false_eq_true, and_true] at hnd
    obtain ⟨⟨n12, n13, n14, n15, n16, n17⟩, ⟨n23, n24, n25, n26, n27⟩, ⟨n34, n35, n36, n37⟩,
      ⟨n45, n46, n47⟩, ⟨n56, n57⟩, n67⟩ := hnd
    have hflags : ∃ item : PbTraceMemoryAccess,
        t.traceConcreteDataMemoryAccess K state address value size flags =
          { t with m_tracer := t.m_tracer ++ [⟨.TRACE_MEMORY, .memoryAccess item⟩] } ∧
        item.pc = state.pc ∧ item.address = address ∧ item.value = value ∧
        item.size = size ∧ item.host_address = 0 ∧
        item.flags =
          ((if testFlag flags K.MEM_TRACE_FLAG_WRITE then K.EXECTRACE_MEM_WRITE else 0) |||
            (if testFlag flags K.MEM_TRACE_FLAG_IO then K.EXECTRACE_MEM_IO else 0)) := by
      unfold traceConcreteDataMemoryAccess
      simp only [hscope]
      refine ⟨_, rfl, rfl, rfl, rfl, rfl, rfl, ?_⟩
      by_cases h1 : testFlag flags K.MEM_TRACE_FLAG_WRITE = true <;>
        by_cases h2 : testFlag flags K.MEM_TRACE_FLAG_IO = true <;>
        simp [h1, h2]
    obtain ⟨item, hres, hpc, haddr, hval, hsize, hhost, hfl⟩ := hflags
    refine ⟨item, hres, hpc, haddr, hval, hsize, hhost, ?_, ?_, ?_, ?_, ?_, ?_, ?_, ?_⟩
    all_goals
      rw [hfl]
      simp only [hW, hIO, hSV, hSA, hHH, hSH, hOS, testFlag_two_pow, Nat.testBit_or,
        testBit_ite_two_pow]
    iterate 7 simp [n12, n13, n14, n15, n16, n17, n23, n24, n25, n26, n27, n34, n35, n36, n37,
      n45, n46, n47, n56, n57, n67, Ne.symm n12, Ne.symm n13, Ne.symm n14, Ne.symm n15,
      Ne.symm n16, Ne.symm n17, Ne.symm n23, Ne.symm n24, Ne.symm n25, Ne.symm n26, Ne.symm n27,
      Ne.symm n34, Ne.symm n35, Ne.symm n36, Ne.symm n37, Ne.symm n45, Ne.symm n46, Ne.symm n47,
      Ne.symm n56, Ne.symm n57, Ne.symm n67]
    · intro i hi
      simp only [Bool.or_eq_true, Bool.and_eq_true, decide_eq_true_eq] at hi
      rcases hi with ⟨-, h⟩ | ⟨-, h⟩
      · exact Or.inl h.symm
      · exact Or.inr h.symm

/-- A witness for C6: an in-scope write of value 9 to address 16. -/
theorem traceConcrete_record_witness :
    Constants.Layout sampleConstants sampleBits ∧
    idleTracer.decideTracing (sampleState 5) = true ∧
    ∃ item : PbTraceMemoryAccess,
      idleTracer.traceConcreteDataMemoryAccess sampleConstants (sampleState 5) 16 9 4 2 =
        { idleTracer with
          m_tracer := idleTracer.m_tracer ++ [⟨.TRACE_MEMORY, .memoryAccess item⟩] } ∧
      item.pc = 5 ∧ item.address = 16 ∧ item.value = 9 ∧
      item.size = 4 ∧ item.host_address = 0 ∧
      testFlag item.flags 1 = testFlag 2 2 ∧
      testFlag item.flags 2 = testFlag 2 1 ∧
      testFlag item.flags 8 = false ∧
      testFlag item.flags 4 = false ∧
      testFlag item.flags 32 = false ∧
      testFlag item.flags 16 = false ∧
      testFlag item.flags 64 = false ∧
      ∀ i, item.flags.testBit i = true → i = 0 ∨ i = 1 :=
  ⟨sampleConstants_layout false, by decide,
    (traceConcrete_record sampleConstants sampleBits (sampleConstants_layout false) idleTracer
      (sampleState 5) 16 9 4 2).2 (by decide)⟩

/-! ### Subscription manager -/

theorem connectMemoryTracing_idem (t : MemoryTracer) :
    t.connectMemoryTracing.connectMemoryTracing = t.connectMemoryTracing := by
  unfold connectMemoryTracing
  by_cases h1 : t.m_symbolicMemoryMonitor.connected = true <;>
    by_cases h2 : t.m_concreteMemoryMonitor.connected = true <;>
    simp [h1, h2, Connection.assign]

theorem connectMemoryTracing_iterate (t : MemoryTracer) (n : Nat) :
    connectMemoryTracing^[n + 1] t = t.connectMemoryTracing := by
  induction n with
  | zero => rfl
  | succ k ih => rw [Function.iterate_succ_apply', ih, connectMemoryTracing_idem]

/-- C7: from every state in which no slot is detached from its handle (every state
the plugin reaches), calling `connectMemoryTracing()` `n ≥ 1` times yields the same
state as calling it once; in that state exactly one symbolic-memory slot and exactly
one concrete-memory slot are registered, both handles are connected, and
`tracingEnabled()` returns true. -/
theorem connectMemoryTracing_times (t : MemoryTracer) (n : Nat) (hn : 1 ≤ n)
    (hsym : t.m_symbolicMemoryMonitor.detached = 0)
    (hcon : t.m_concreteMemoryMonitor.detached = 0) :
    connectMemoryTracingTimes n t = t.connectMemoryTracing ∧
    (connectMemoryTracingTimes n t).m_symbolicMemoryMonitor.slots = 1 ∧
    (connectMemoryTracingTimes n t).m_concreteMemoryMonitor.slots = 1 ∧
    (connectMemoryTracingTimes n t).m_symbolicMemoryMonitor.connected = true ∧
    (connectMemoryTracingTimes n t).m_concreteMemoryMonitor.connected = true ∧
    (connectMemoryTracingTimes n t).tracingEnabled = true := by
  obtain ⟨k, rfl⟩ : ∃ k, n = k + 1 := ⟨n - 1, by omega⟩
  have hrep : connectMemoryTracingTimes (k + 1) t = t.connectMemoryTracing :=
    connectMemoryTracing_iterate t k
  rw [hrep]
  refine ⟨rfl, ?_, ?_, ?_, ?_, ?_⟩ <;>
    by_cases h1 : t.m_symbolicMemoryMonitor.connected = true <;>
    by_cases h2 : t.m_concreteMemoryMonitor.connected = true <;>
    simp [connectMemoryTracing, tracingEnabled, Connection.assign, Connection.slots, h1, h2,
      hsym, hcon]

/-- A witness for C7: three calls on a tracer whose concrete-memory listener alone
is connected. -/
theorem connectMemoryTracing_times_witness :
    1 ≤ 3 ∧
    ({ idleTracer with m_concreteMemoryMonitor := ⟨true, 0⟩ } : MemoryTracer
      ).m_symbolicMemoryMonitor.detached = 0 ∧
    ({ idleTracer with m_concreteMemoryMonitor := ⟨true, 0⟩ } : MemoryTracer
      ).m_concreteMemoryMonitor.detached = 0 ∧
    connectMemoryTracingTimes 3 { idleTracer with m_concreteMemoryMonitor := ⟨true, 0⟩ } =
      { idleTracer with m_concreteMemoryMonitor := ⟨true, 0⟩ }.connectMemoryTracing ∧
    (connectMemoryTracingTimes 3 { idleTracer with m_concreteMemoryMonitor := ⟨true, 0⟩ }
      ).m_symbolicMemoryMonitor.slots = 1 ∧
    (connectMemoryTracingTimes 3 { idleTracer with m_concreteMemoryMonitor := ⟨true, 0⟩ }
      ).m_concreteMemoryMonitor.slots = 1 ∧
    (connectMemoryTracingTimes 3 { idleTracer with m_concreteMemoryMonitor := ⟨true, 0⟩ }
      ).m_symbolicMemoryMonitor.connected = true ∧
    (connectMemoryTracingTimes 3 { idleTracer with m_concreteMemoryMonitor := ⟨true, 0⟩ }
      ).m_concreteMemoryMonitor.connected = true ∧
    (connectMemoryTracingTimes 3 { idleTracer with m_concreteMemoryMonitor := ⟨true, 0⟩ }
      ).tracingEnabled = true :=
  ⟨by decide, rfl, rfl,
    connectMemoryTracing_times { idleTracer with m_concreteMemoryMonitor := ⟨true, 0⟩ } 3
      (by decide) rfl rfl⟩

/-- C8 fails on the code: with memory monitoring restricted to modules,
initialisation runs `enableTracing()` once and leaves one module-transition and one
translate-block listener on the detector; a second `enableTracing()` leaves two of
each, so twice is not once. -/
theorem enableTracing_twice_registers_twice :
    MemoryTracer.initialise gatedConfig (some ⟨0, 0⟩) [] = some gatedTracer.enableTracing ∧
    gatedTracer.enableTracing.m_execDetector = some ⟨1, 1⟩ ∧
    gatedTracer.enableTracing.enableTracing.m_execDetector = some ⟨2, 2⟩ ∧
    gatedTracer.enableTracing.enableTracing ≠ gatedTracer.enableTracing := by
  refine ⟨by decide, by decide, by decide, by decide⟩

/-- C9 fails on the code: with memory monitoring restricted to modules, after
initialisation, a module transition into a module and then `setProperty("trace",
"1")` (which runs `enableTracing()`), the symbolic-memory listener is disconnected
while the concrete-memory listener is still connected. -/
theorem memory_listeners_split_after_enable :
    ∃ t0 t1 t2 : MemoryTracer,
      MemoryTracer.initialise gatedConfig (some ⟨0, 0⟩) [] = some t0 ∧
      runCalls sampleConstants t0 [.onModuleTransition (sampleState 5) none (some ⟨1⟩)] =
        some t1 ∧
      t1.m_symbolicMemoryMonitor.connected = true ∧
      t1.m_concreteMemoryMonitor.connected = true ∧
      runCalls sampleConstants t0
        [.onModuleTransition (sampleState 5) none (some ⟨1⟩),
         .setProperty (sampleState 5) "trace" "1"] = some t2 ∧
      t2.m_symbolicMemoryMonitor.connected = false ∧
      t2.m_concreteMemoryMonitor.connected = true :=
  ⟨gatedTracer.enableTracing,
    (gatedTracer.enableTracing.onModuleTransition (sampleState 5) none (some ⟨1⟩)),
    (gatedTracer.enableTracing.onModuleTransition (sampleState 5) none (some ⟨1⟩)).enableTracing,
    by decide, by decide, by decide, by decide, by decide, by decide, by decide⟩

/-- C10: when memory monitoring is configured, `enableTracing()` with module-gating
leaves the symbolic-memory handle disconnected and the concrete-memory handle as it
was (so it connects neither), registers no memory slot, and registers one more
module-transition and one more translate-block listener on the detector; without
module-gating both memory handles are connected on return and `tracingEnabled()` is
true. The page-fault and TLB-miss handles are connected on return when configured
and unchanged when not. -/
theorem enableTracing_postcondition (t : MemoryTracer) (hmem : t.m_monitorMemory = true) :
    (t.m_monitorModules = true →
      t.enableTracing.m_symbolicMemoryMonitor.connected = false ∧
      t.enableTracing.m_symbolicMemoryMonitor.detached = t.m_symbolicMemoryMonitor.detached ∧
      t.enableTracing.m_concreteMemoryMonitor = t.m_concreteMemoryMonitor ∧
      (t.m_concreteMemoryMonitor.connected = false → t.enableTracing.tracingEnabled = false) ∧
      ∀ d, t.m_execDetector = some d →
        t.enableTracing.m_execDetector =
          some ⟨d.onModuleTransition + 1, d.onModuleTranslateBlockStart + 1⟩) ∧
    (t.m_monitorModules = false →
      t.enableTracing.m_symbolicMemoryMonitor.connected = true ∧
      t.enableTracing.m_concreteMemoryMonitor.connected = true ∧
      t.enableTracing.tracingEnabled = true ∧
      t.enableTracing.m_execDetector = t.m_execDetector) ∧
    (t.m_monitorPageFaults = true → t.enableTracing.m_pageFaultsMonitor.connected = true) ∧
    (t.m_monitorPageFaults = false →
      t.enableTracing.m_pageFaultsMonitor = t.m_pageFaultsMonitor) ∧
    (t.m_monitorTlbMisses = true → t.enableTracing.m_tlbMissesMonitor.connected = true) ∧
    (t.m_monitorTlbMisses = false →
      t.enableTracing.m_tlbMissesMonitor = t.m_tlbMissesMonitor) := by
  by_cases hmod : t.m_monitorModules = true <;> by_cases hp : t.m_monitorPageFaults = true <;>
    by_cases hl : t.m_monitorTlbMisses = true <;>
    by_cases hc : t.m_concreteMemoryMonitor.connected = true <;>
    simp [enableTracing, connectMemoryTracing, tracingEnabled, hmem, hmod, hp, hl, hc,
      Connection.disconnect, Connection.assign] <;>
    exact fun d hd => ⟨d, hd, rfl, rfl⟩

/-- A witness for C10: the module-gated tracer before its first `enableTracing()`. -/
theorem enableTracing_postcondition_witness :
    gatedTracer.m_monitorMemory = true ∧
    gatedTracer.m_monitorModules = true ∧
    gatedTracer.enableTracing.m_symbolicMemoryMonitor.connected = false ∧
    gatedTracer.enableTracing.m_concreteMemoryMonitor = gatedTracer.m_concreteMemoryMonitor ∧
    gatedTracer.enableTracing.tracingEnabled = false ∧
    gatedTracer.enableTracing.m_execDetector = some ⟨0 + 1, 0 + 1⟩ ∧
    gatedTracer.enableTracing.m_pageFaultsMonitor = gatedTracer.m_pageFaultsMonitor ∧
    gatedTracer.enableTracing.m_tlbMissesMonitor = gatedTracer.m_tlbMissesMonitor :=
  ⟨rfl, rfl,
    ((enableTracing_postcondition gatedTracer rfl).1 rfl).1,
    ((enableTracing_postcondition gatedTracer rfl).1 rfl).2.2.1,
    ((enableTracing_postcondition gatedTracer rfl).1 rfl).2.2.2.1 rfl,
    ((enableTracing_postcondition gatedTracer rfl).1 rfl).2.2.2.2 ⟨0, 0⟩ rfl,
    (enableTracing_postcondition gatedTracer rfl).2.2.2.1 rfl,
    (enableTracing_postcondition gatedTracer rfl).2.2.2.2.2 rfl⟩

/-! ### Slots and handles -/

theorem traceSymbolic_frame (K : Constants) (t t1 : MemoryTracer) (state : S2EExecutionState)
    (address hostAddress value : Expr) (flags : Nat)
    (h : t.traceSymbolicDataMemoryAccess K state address hostAddress value flags = some t1) :
    t1 = { t with m_tracer := t1.m_tracer } := by
  unfold traceSymbolicDataMemoryAccess at h
  split at h
  · cases h; rfl
  · simp only at h
    split at h
    · cases h
    · cases h; rfl

theorem traceConcrete_frame (K : Constants) (t : MemoryTracer) (state : S2EExecutionState)
    (address value size flags : Nat) :
    t.traceConcreteDataMemoryAccess K state address value size flags =
      { t with
        m_tracer := (t.traceConcreteDataMemoryAccess K state address value size flags).m_tracer } := by
  unfold traceConcreteDataMemoryAccess
  split <;> rfl

theorem noDetached_connectMemoryTracing (t : MemoryTracer) (h : t.NoDetached) :
    t.connectMemoryTracing.NoDetached := by
  obtain ⟨h1, h2, h3, h4, h5⟩ := h
  by_cases hs : t.m_symbolicMemoryMonitor.connected = true <;>
    by_cases hc : t.m_concreteMemoryMonitor.connected = true <;>
    simp [NoDetached, connectMemoryTracing, Connection.assign, hs, hc, h1, h2, h3, h4, h5]

theorem noDetached_disconnectMemoryTracing (t : MemoryTracer) (h : t.NoDetached) :
    t.disconnectMemoryTracing.NoDetached := by
  obtain ⟨h1, h2, h3, h4, h5⟩ := h
  simp [NoDetached, disconnectMemoryTracing, Connection.disconnect, h1, h2, h3, h4, h5]

theorem noDetached_disableTracing (t : MemoryTracer) (h : t.NoDetached) :
    t.disableTracing.NoDetached := by
  obtain ⟨h1, h2, h3, h4, h5⟩ := h
  simp [NoDetached, disableTracing, disconnectMemoryTracing, Connection.disconnect, h1, h2, h3,
    h4, h5]

theorem noDetached_enableTracing (t : MemoryTracer) (h : t.NoDetached) :
    t.enableTracing.NoDetached := by
  obtain ⟨h1, h2, h3, h4, h5⟩ := h
  by_cases hmem : t.m_monitorMemory = true <;> by_cases hmod : t.m_monitorModules = true <;>
    by_cases hp : t.m_monitorPageFaults = true <;> by_cases hl : t.m_monitorTlbMisses = true <;>
    by_cases hc : t.m_concreteMemoryMonitor.connected = true <;>
    simp [NoDetached, enableTracing, connectMemoryTracing, Connection.disconnect,
      Connection.assign, hmem, hmod, hp, hl, hc, h1, h2, h3, h4, h5]

theorem noDetached_of_frame (t t1 : MemoryTracer) (h : t.NoDetached)
    (hf : t1 = { t with m_tracer := t1.m_tracer }) : t1.NoDetached := by
  rw [hf]
  exact h

theorem noDetached_forceDisconnect (t : MemoryTracer) (state : S2EExecutionState)
    (h : t.NoDetached) : (t.forceDisconnect state).1.NoDetached := by
  unfold forceDisconnect
  split
  · exact noDetached_disconnectMemoryTracing t h
  · exact h

end MemoryTracer

/-- Every call keeps the handles free of detached slots. -/
theorem noDetached_apply (K : Constants) (t t1 : MemoryTracer) (c : Call) (h : t.NoDetached)
    (hc : c.apply K t = some t1) : t1.NoDetached := by
  cases c with
  | enableTracing => cases hc; exact MemoryTracer.noDetached_enableTracing t h
  | disableTracing => cases hc; exact MemoryTracer.noDetached_disableTracing t h
  | connectMemoryTracing => cases hc; exact MemoryTracer.noDetached_connectMemoryTracing t h
  | disconnectMemoryTracing =>
    cases hc; exact MemoryTracer.noDetached_disconnectMemoryTracing t h
  | onModuleTransition state p n =>
    cases hc
    apply MemoryTracer.emit_preserves MemoryTracer.NoDetached _ _ _ _ h
    intro t2 h2
    unfold MemoryTracer.onModuleTransition
    split
    · exact MemoryTracer.noDetached_connectMemoryTracing t2 h2
    · exact MemoryTracer.noDetached_disconnectMemoryTracing t2 h2
  | onModuleTranslateBlockStart state m pc =>
    cases hc
    apply MemoryTracer.emit_preserves MemoryTracer.NoDetached _ _ _ _ h
    intro t2 h2
    exact h2
  | onExecuteBlockStart state pc =>
    cases hc; exact MemoryTracer.noDetached_connectMemoryTracing t h
  | onAfterSymbolicDataMemoryAccess state a ha v f =>
    simp only [Call.apply, MemoryTracer.onAfterSymbolicDataMemoryAccess] at hc
    split at hc
    · cases hc; exact MemoryTracer.noDetached_forceDisconnect t state h
    · exact MemoryTracer.noDetached_of_frame _ _
        (MemoryTracer.noDetached_forceDisconnect t state h)
        (MemoryTracer.traceSymbolic_frame K _ _ state a ha v f hc)
  | onConcreteDataMemoryAccess state a v sz f =>
    cases hc
    unfold MemoryTracer.onConcreteDataMemoryAccess
    split
    · exact MemoryTracer.noDetached_forceDisconnect t state h
    · exact MemoryTracer.noDetached_of_frame _ _
        (MemoryTracer.noDetached_forceDisconnect t state h)
        (MemoryTracer.traceConcrete_frame K _ state a v sz f)
  | onTlbMiss state a w ok =>
    cases hc
    unfold MemoryTracer.onTlbMiss
    split
    · exact h
    · exact h
  | onPageFault state a w => cases hc; exact h
  | onTimer =>
    cases hc
    unfold MemoryTracer.onTimer
    simp only
    split
    · exact h
    · have h2 := MemoryTracer.noDetached_enableTracing
        { t with m_elapsedTics := (t.m_elapsedTics + 1) % 2 ^ 64 } h
      obtain ⟨a1, a2, a3, a4, a5⟩ := h2
      exact ⟨a1, a2, a3, a4, a5⟩
  | onCustomInstruction state opcode =>
    cases hc
    unfold MemoryTracer.onCustomInstruction
    split
    · exact h
    · simp only
      split
      · exact MemoryTracer.noDetached_enableTracing t h
      · split
        · exact MemoryTracer.noDetached_disableTracing t h
        · exact h
  | setProperty state name value =>
    cases hc
    unfold MemoryTracer.setProperty
    split
    · split
      · exact MemoryTracer.noDetached_enableTracing t h
      · exact MemoryTracer.noDetached_disableTracing t h
    · exact h
  | getProperty state name => cases hc; exact h

/-- Initialisation leaves no detached slot. -/
theorem noDetached_initialise (cfg : Config) (d : Option ModuleExecutionDetector)
    (log : List TraceEntry) (t : MemoryTracer)
    (h : MemoryTracer.initialise cfg d log = some t) : t.NoDetached := by
  unfold MemoryTracer.initialise at h
  split at h
  · cases h
  · simp only at h
    split at h
    · cases h
      simp [MemoryTracer.NoDetached, Connection.assign]
    · split at h
      · cases h
        simp [MemoryTracer.NoDetached]
      · cases h
        apply MemoryTracer.noDetached_enableTracing
        simp [MemoryTracer.NoDetached]

/-- In every state reached from initialisation by a sequence of calls, no handle
has a detached slot. -/
theorem noDetached_runCalls (K : Constants) (cs : List Call) (t t1 : MemoryTracer)
    (h : t.NoDetached) (hr : runCalls K t cs = some t1) : t1.NoDetached := by
  induction cs generalizing t with
  | nil => cases hr; exact h
  | cons c cs ih =>
    simp only [runCalls] at hr
    split at hr
    · split at hr
      · rename_i t2 hc
        exact ih t2 (noDetached_apply K t t2 c h hc) hr
      · cases hr
    · cases hr

namespace MemoryTracer

/-! ### Disabling -/

theorem Connection_disconnect_of_not_connected (c : Connection) (h : c.connected = false) :
    c.disconnect = c := by
  cases c
  simp only [Connection.disconnect] at *
  simp [h]

/-- C11: from every state, after `disableTracing()` the symbolic-memory,
concrete-memory, page-fault and TLB-miss handles are all disconnected and
`tracingEnabled()` is false; `disableTracing()` and `disconnectMemoryTracing()`
called on a state that is already disconnected leave it unchanged, and calling
either twice is the same as calling it once. -/
theorem disableTracing_disconnects (t : MemoryTracer) :
    t.disableTracing.m_symbolicMemoryMonitor.connected = false ∧
    t.disableTracing.m_concreteMemoryMonitor.connected = false ∧
    t.disableTracing.m_pageFaultsMonitor.connected = false ∧
    t.disableTracing.m_tlbMissesMonitor.connected = false ∧
    t.disableTracing.tracingEnabled = false ∧
    t.disconnectMemoryTracing.tracingEnabled = false ∧
    (t.m_symbolicMemoryMonitor.connected = false → t.m_concreteMemoryMonitor.connected = false →
      t.disconnectMemoryTracing = t) ∧
    (t.m_symbolicMemoryMonitor.connected = false → t.m_concreteMemoryMonitor.connected = false →
      t.m_pageFaultsMonitor.connected = false → t.m_tlbMissesMonitor.connected = false →
      t.disableTracing = t) ∧
    t.disableTracing.disableTracing = t.disableTracing ∧
    t.disconnectMemoryTracing.disconnectMemoryTracing = t.disconnectMemoryTracing ∧
    t.disableTracing.disconnectMemoryTracing = t.disableTracing := by
  refine ⟨rfl, rfl, rfl, rfl, rfl, rfl, ?_, ?_, rfl, rfl, rfl⟩
  · intro h1 h2
    simp [disconnectMemoryTracing, Connection_disconnect_of_not_connected, h1, h2]
  · intro h1 h2 h3 h4
    simp [disableTracing, disconnectMemoryTracing, Connection_disconnect_of_not_connected, h1,
      h2, h3, h4]

/-- A witness for C11: a tracer with all four handles connected, and the idle
tracer, on which both operations change nothing. -/
theorem disableTracing_disconnects_witness :
    ({ idleTracer with
        m_symbolicMemoryMonitor := ⟨true, 0⟩, m_concreteMemoryMonitor := ⟨true, 0⟩,
        m_pageFaultsMonitor := ⟨true, 0⟩, m_tlbMissesMonitor := ⟨true, 0⟩ } : MemoryTracer
      ).disableTracing = idleTracer ∧
    idleTracer.disconnectMemoryTracing = idleTracer ∧
    idleTracer.disableTracing = idleTracer :=
  ⟨by decide,
    (disableTracing_disconnects idleTracer).2.2.2.2.2.2.1 rfl rfl,
    (disableTracing_disconnects idleTracer).2.2.2.2.2.2.2.1 rfl rfl rfl rfl⟩

/-! ### Timer trigger -/

theorem enableTracing_elapsedTics (t : MemoryTracer) (e : Nat) :
    ({ t with m_elapsedTics := e } : MemoryTracer).enableTracing =
      { t.enableTracing with m_elapsedTics := e } := by
  by_cases hmem : t.m_monitorMemory = true <;> by_cases hmod : t.m_monitorModules = true <;>
    by_cases hp : t.m_monitorPageFaults = true <;> by_cases hl : t.m_monitorTlbMisses = true <;>
    by_cases hc : t.m_concreteMemoryMonitor.connected = true <;>
    simp [enableTracing, connectMemoryTracing, Connection.disconnect, Connection.assign, hmem,
      hmod, hp, hl, hc]

theorem enableTracing_timerConnection (t : MemoryTracer) :
    t.enableTracing.m_timerConnection = t.m_timerConnection := by
  by_cases hmem : t.m_monitorMemory = true <;> by_cases hmod : t.m_monitorModules = true <;>
    by_cases hp : t.m_monitorPageFaults = true <;> by_cases hl : t.m_monitorTlbMisses = true <;>
    by_cases hc : t.m_concreteMemoryMonitor.connected = true <;>
    simp [enableTracing, connectMemoryTracing, Connection.disconnect, Connection.assign, hmem,
      hmod, hp, hl, hc]

theorem onTimer_before_trigger (t : MemoryTracer) (h : t.m_elapsedTics < t.m_timeTrigger) :
    t.onTimer = { t with m_elapsedTics := (t.m_elapsedTics + 1) % 2 ^ 64 } := by
  simp [onTimer, h]

theorem onTimer_at_trigger (t : MemoryTracer) (h : ¬ t.m_elapsedTics < t.m_timeTrigger) :
    t.onTimer =
      { t.enableTracing with
        m_elapsedTics := (t.m_elapsedTics + 1) % 2 ^ 64
        m_timerConnection := t.m_timerConnection.disconnect } := by
  simp only [onTimer, h, if_false, enableTracing_elapsedTics, enableTracing_timerConnection]

/-- C12: with `timeTrigger = n` (a 64-bit value) and the tick counter at 0, each of
the first `n` timer callbacks only advances the tick counter (no subscription
changes, the timer listener stays as it is), and the `(n + 1)`-th callback runs
`enableTracing()` and then disconnects the timer listener. -/
theorem onTimer_activates_after (t : MemoryTracer) (n : Nat) (htrig : t.m_timeTrigger = n)
    (hzero : t.m_elapsedTics = 0) (hn : n < 2 ^ 64) :
    (∀ k, k ≤ n → onTimerTimes k t = { t with m_elapsedTics := k }) ∧
    onTimerTimes (n + 1) t =
      { t.enableTracing with
        m_elapsedTics := (n + 1) % 2 ^ 64
        m_timerConnection := t.m_timerConnection.disconnect } ∧
    (onTimerTimes (n + 1) t).m_timerConnection.connected = false := by
  have hfirst : ∀ k, k ≤ n → onTimerTimes k t = { t with m_elapsedTics := k } := by
    intro k
    induction k with
    | zero =>
      intro _
      show t = { t with m_elapsedTics := 0 }
      rw [← hzero]
    | succ j ih =>
      intro hj
      have hprev := ih (by omega)
      unfold onTimerTimes at hprev ⊢
      rw [Function.iterate_succ_apply', hprev, onTimer_before_trigger]
      · simp
        omega
      · show j < t.m_timeTrigger
        omega
  have hlast : onTimerTimes (n + 1) t =
      { t.enableTracing with
        m_elapsedTics := (n + 1) % 2 ^ 64
        m_timerConnection := t.m_timerConnection.disconnect } := by
    have hprev := hfirst n (Nat.le_refl n)
    unfold onTimerTimes at hprev ⊢
    rw [Function.iterate_succ_apply', hprev, onTimer_at_trigger]
    · simp [enableTracing_elapsedTics]
    · show ¬ n < t.m_timeTrigger
      omega
  refine ⟨hfirst, hlast, ?_⟩
  rw [hlast]
  rfl

/-- A witness for C12: with `timeTrigger = 3`, the tracer built by `initialize` is
inactive after one, two and three timer callbacks, and the fourth one enables
memory tracing and disconnects the timer. -/
theorem onTimer_activates_after_witness :
    MemoryTracer.initialise timerConfig none [] = some timerTracer ∧
    timerTracer.m_timeTrigger = 3 ∧ timerTracer.m_elapsedTics = 0 ∧ 3 < 2 ^ 64 ∧
    (∀ k, k ≤ 3 → onTimerTimes k timerTracer = { timerTracer with m_elapsedTics := k }) ∧
    (onTimerTimes 3 timerTracer).tracingEnabled = false ∧
    (onTimerTimes 3 timerTracer).m_timerConnection.connected = true ∧
    (onTimerTimes 4 timerTracer).tracingEnabled = true ∧
    (onTimerTimes 4 timerTracer).m_timerConnection.connected = false :=
  ⟨by decide, rfl, rfl, by decide,
    (onTimer_activates_after timerTracer 3 rfl rfl (by decide)).1,
    by decide, by decide, by decide,
    (onTimer_activates_after timerTracer 3 rfl rfl (by decide)).2.2⟩

/-! ### Module-transition gate -/

theorem onModuleTransition_connected (t : MemoryTracer) (state : S2EExecutionState)
    (p n : Option ModuleDescriptor) :
    (t.onModuleTransition state p n).m_symbolicMemoryMonitor.connected =
        (n.isSome && !t.m_symbolicMemoryMonitor.connected) ∧
    (t.onModuleTransition state p n).m_concreteMemoryMonitor.connected =
        (n.isSome && !t.m_symbolicMemoryMonitor.connected) := by
  cases n <;> by_cases hs : t.m_symbolicMemoryMonitor.connected = true <;>
    by_cases hc : t.m_concreteMemoryMonitor.connected = true <;>
    simp [onModuleTransition, connectMemoryTracing, disconnectMemoryTracing, Connection.assign,
      Connection.disconnect, hs, hc]

theorem notifyModuleTransition_single (t : MemoryTracer) (state : S2EExecutionState)
    (p n : Option ModuleDescriptor) (h : t.moduleTransitionSlots = 1) :
    t.notifyModuleTransition state p n = t.onModuleTransition state p n := by
  unfold notifyModuleTransition
  rw [h]
  rfl

theorem notifyModuleTransition_double (t : MemoryTracer) (state : S2EExecutionState)
    (p n : Option ModuleDescriptor) (h : t.moduleTransitionSlots = 2) :
    t.notifyModuleTransition state p n =
      (t.onModuleTransition state p n).onModuleTransition state p n := by
  unfold notifyModuleTransition
  rw [h]
  rfl

theorem notifyModuleTransition_one_listener (t : MemoryTracer) (state : S2EExecutionState)
    (p : Option ModuleDescriptor) (m : ModuleDescriptor) (h : t.moduleTransitionSlots = 1)
    (hoff : t.tracingEnabled = false) :
    (t.notifyModuleTransition state p (some m)).tracingEnabled = true := by
  have hs : t.m_symbolicMemoryMonitor.connected = false := by
    unfold tracingEnabled at hoff
    cases hc : t.m_symbolicMemoryMonitor.connected
    · rfl
    · rw [hc] at hoff
      simp at hoff
  rw [notifyModuleTransition_single t state p (some m) h]
  obtain ⟨h1, -⟩ := onModuleTransition_connected t state p (some m)
  unfold tracingEnabled
  rw [h1, hs]
  rfl

theorem notifyModuleTransition_null (t : MemoryTracer) (state : S2EExecutionState)
    (p : Option ModuleDescriptor) (h : 0 < t.moduleTransitionSlots) :
    (t.notifyModuleTransition state p none).tracingEnabled = false := by
  obtain ⟨k, hk⟩ : ∃ k, t.moduleTransitionSlots = k + 1 := ⟨t.moduleTransitionSlots - 1, by omega⟩
  unfold notifyModuleTransition emit
  rw [hk, Function.iterate_succ_apply']
  obtain ⟨h1, h2⟩ := onModuleTransition_connected
    ((fun t1 : MemoryTracer => t1.onModuleTransition state p none)^[k] t) state p none
  unfold tracingEnabled
  rw [h1, h2]
  rfl

theorem notifyModuleTransition_two_listeners (t : MemoryTracer) (state : S2EExecutionState)
    (p : Option ModuleDescriptor) (m : ModuleDescriptor) (h : t.moduleTransitionSlots = 2) :
    (t.notifyModuleTransition state p (some m)).tracingEnabled =
      t.m_symbolicMemoryMonitor.connected := by
  rw [notifyModuleTransition_double t state p (some m) h]
  obtain ⟨h1, h2⟩ := onModuleTransition_connected (t.onModuleTransition state p (some m)) state p
    (some m)
  obtain ⟨h3, -⟩ := onModuleTransition_connected t state p (some m)
  unfold tracingEnabled
  rw [h1, h2, h3]
  cases t.m_symbolicMemoryMonitor.connected <;> rfl

/-- C13 fails on the code: after initialisation with module-gated memory monitoring
and `setProperty("trace", "1")`, `enableTracing()` has run twice, two
module-transition listeners are registered and no memory listener is connected. A
notification with a non-null next module then runs the handler twice, the first run
connects memory tracing and the second disconnects it, and `tracingEnabled()` is
false afterwards. -/
theorem moduleTransition_two_listeners_stays_inactive :
    ∃ t0 t1 t2 : MemoryTracer,
      MemoryTracer.initialise gatedConfig (some ⟨0, 0⟩) [] = some t0 ∧
      runCalls sampleConstants t0 [.setProperty (sampleState 5) "trace" "1"] = some t1 ∧
      t1.moduleTransitionSlots = 2 ∧
      t1.tracingEnabled = false ∧
      (t1.onModuleTransition (sampleState 5) none (some ⟨1⟩)).tracingEnabled = true ∧
      runCalls sampleConstants t1 [.onModuleTransition (sampleState 5) none (some ⟨1⟩)] =
        some t2 ∧
      t2 = (t1.onModuleTransition (sampleState 5) none (some ⟨1⟩)).onModuleTransition
        (sampleState 5) none (some ⟨1⟩) ∧
      t2.tracingEnabled = false :=
  ⟨gatedTracer.enableTracing, gatedTracer.enableTracing.enableTracing,
    gatedTracer.enableTracing.enableTracing.notifyModuleTransition (sampleState 5) none
      (some ⟨1⟩),
    by decide, by decide, by decide, by decide, by decide, by decide, by decide, by decide⟩

/-- C18 fails on the code: after initialisation with module-gated memory monitoring,
`setProperty("trace", "1")`, a translate-block notification and the block-start
notification it registers, two module-transition listeners are registered and
memory tracing is connected. A notification with a non-null next module then runs
the handler twice (disconnect, then connect), so `tracingEnabled()` is true
afterwards, where the claim gives false; `tracingEnabled()` after such a
notification is its value before, not the negation. -/
theorem moduleTransition_two_listeners_keeps_activity :
    ∃ t0 t1 t2 : MemoryTracer,
      MemoryTracer.initialise gatedConfig (some ⟨0, 0⟩) [] = some t0 ∧
      runCalls sampleConstants t0
        [.setProperty (sampleState 5) "trace" "1",
         .onModuleTranslateBlockStart (sampleState 5) ⟨1⟩ 5,
         .onExecuteBlockStart (sampleState 5) 5] = some t1 ∧
      t1.moduleTransitionSlots = 2 ∧
      t1.m_symbolicMemoryMonitor.connected = true ∧
      t1.m_concreteMemoryMonitor.connected = true ∧
      t1.tracingEnabled = true ∧
      runCalls sampleConstants t1 [.onModuleTransition (sampleState 5) none (some ⟨1⟩)] =
        some t2 ∧
      t2.tracingEnabled = true ∧
      t2.tracingEnabled ≠ ((some (⟨1⟩ : ModuleDescriptor)).isSome && !t1.tracingEnabled) :=
  ⟨gatedTracer.enableTracing,
    ((gatedTracer.enableTracing.enableTracing.notifyModuleTranslateBlockStart (sampleState 5)
      ⟨1⟩ 5).onExecuteBlockStart (sampleState 5) 5),
    ((gatedTracer.enableTracing.enableTracing.notifyModuleTranslateBlockStart (sampleState 5)
      ⟨1⟩ 5).onExecuteBlockStart (sampleState 5) 5).notifyModuleTransition (sampleState 5) none
      (some ⟨1⟩),
    by decide, by decide, by decide, by decide, by decide, by decide, by decide, by decide,
    by decide⟩

/-! ### Force-disconnect -/

/-- C14: a memory-access callback (concrete or symbolic) that arrives while
module-gating is enabled and the current-module lookup returns none emits no record
and leaves both memory handles disconnected (`tracingEnabled()` false); when
module-gating is disabled or the lookup succeeds the callback is the record builder
applied to the unchanged state, which changes nothing but the log. -/
theorem forceDisconnect_gate (K : Constants) (t : MemoryTracer) (state : S2EExecutionState)
    (address hostAddress value : Expr) (a v size flags : Nat) :
    (t.m_monitorModules = true → t.m_execDetector.isSome = true →
      state.currentDescriptor = false →
      t.onConcreteDataMemoryAccess K state a v size flags = t.disconnectMemoryTracing ∧
      t.onAfterSymbolicDataMemoryAccess K state address hostAddress value flags =
        some t.disconnectMemoryTracing ∧
      t.disconnectMemoryTracing.m_tracer = t.m_tracer ∧
      t.disconnectMemoryTracing.m_symbolicMemoryMonitor.connected = false ∧
      t.disconnectMemoryTracing.m_concreteMemoryMonitor.connected = false ∧
      t.disconnectMemoryTracing.tracingEnabled = false) ∧
    (t.m_monitorModules = false ∨ state.currentDescriptor = true →
      t.onConcreteDataMemoryAccess K state a v size flags =
        t.traceConcreteDataMemoryAccess K state a v size flags ∧
      t.onAfterSymbolicDataMemoryAccess K state address hostAddress value flags =
        t.traceSymbolicDataMemoryAccess K state address hostAddress value flags ∧
      t.onConcreteDataMemoryAccess K state a v size flags =
        { t with m_tracer := (t.onConcreteDataMemoryAccess K state a v size flags).m_tracer } ∧
      ∀ t1, t.onAfterSymbolicDataMemoryAccess K state address hostAddress value flags = some t1 →
        t1 = { t with m_tracer := t1.m_tracer }) := by
  constructor
  · intro hmod hdet hcur
    have hf : t.forceDisconnect state = (t.disconnectMemoryTracing, true) := by
      simp [forceDisconnect, hmod, hdet, hcur]
    refine ⟨?_, ?_, rfl, rfl, rfl, rfl⟩
    · simp [onConcreteDataMemoryAccess, hf]
    · simp [onAfterSymbolicDataMemoryAccess, hf]
  · intro h
    have hf : t.forceDisconnect state = (t, false) := by
      rcases h with h | h <;> simp [forceDisconnect, h]
    have hc : t.onConcreteDataMemoryAccess K state a v size flags =
        t.traceConcreteDataMemoryAccess K state a v size flags := by
      simp [onConcreteDataMemoryAccess, hf]
    have hs : t.onAfterSymbolicDataMemoryAccess K state address hostAddress value flags =
        t.traceSymbolicDataMemoryAccess K state address hostAddress value flags := by
      simp [onAfterSymbolicDataMemoryAccess, hf]
    refine ⟨hc, hs, ?_, ?_⟩
    · rw [hc]
      exact traceConcrete_frame K t state a v size flags
    · intro t1 h1
      rw [hs] at h1
      exact traceSymbolic_frame K t t1 state address hostAddress value flags h1

/-- A witness for C14: the module-gated tracer with both memory listeners connected,
reached by an access outside every module and by one inside a module. -/
theorem forceDisconnect_gate_witness :
    ({ gatedTracer with
        m_symbolicMemoryMonitor := ⟨true, 0⟩, m_concreteMemoryMonitor := ⟨true, 0⟩ } : MemoryTracer
      ).onConcreteDataMemoryAccess sampleConstants
        { sampleState 5 with currentDescriptor := false } 16 9 4 2 = gatedTracer ∧
    ({ gatedTracer with
        m_symbolicMemoryMonitor := ⟨true, 0⟩, m_concreteMemoryMonitor := ⟨true, 0⟩ } : MemoryTracer
      ).onConcreteDataMemoryAccess sampleConstants (sampleState 5) 16 9 4 2 =
      ({ gatedTracer with
        m_symbolicMemoryMonitor := ⟨true, 0⟩, m_concreteMemoryMonitor := ⟨true, 0⟩ } : MemoryTracer
      ).traceConcreteDataMemoryAccess sampleConstants (sampleState 5) 16 9 4 2 :=
  ⟨((forceDisconnect_gate sampleConstants
      { gatedTracer with
        m_symbolicMemoryMonitor := ⟨true, 0⟩, m_concreteMemoryMonitor := ⟨true, 0⟩ }
      { sampleState 5 with currentDescriptor := false } (.constant 16 32) (.constant 4096 64)
      (.constant 9 8) 16 9 4 2).1 rfl rfl rfl).1,
    ((forceDisconnect_gate sampleConstants
      { gatedTracer with
        m_symbolicMemoryMonitor := ⟨true, 0⟩, m_concreteMemoryMonitor := ⟨true, 0⟩ }
      (sampleState 5) (.constant 16 32) (.constant 4096 64)
      (.constant 9 8) 16 9 4 2).2 (Or.inr rfl)).1⟩

/-! ### Property and command interfaces -/

/-- C15: `setProperty` returns true iff the name is `"trace"`; for the name
`"trace"` the resulting state is that of `enableTracing()` when the value is `"1"`
and that of `disableTracing()` for every other value; for any other name the state
is unchanged. `getProperty` returns false for every name and leaves the state
unchanged. -/
theorem property_interface (t : MemoryTracer) (state : S2EExecutionState)
    (name value : String) :
    ((t.setProperty state name value).2 = true ↔ name = "trace") ∧
    (name = "trace" → value = "1" → (t.setProperty state name value).1 = t.enableTracing) ∧
    (name = "trace" → value ≠ "1" → (t.setProperty state name value).1 = t.disableTracing) ∧
    (name ≠ "trace" → (t.setProperty state name value).1 = t) ∧
    (t.getProperty state name).2 = false ∧
    (t.getProperty state name).1 = t := by
  refine ⟨?_, ?_, ?_, ?_, rfl, rfl⟩
  · by_cases hn : name = "trace" <;> by_cases hv : value = "1" <;> simp [setProperty, hn, hv]
  · intro hn hv
    simp [setProperty, hn, hv]
  · intro hn hv
    simp [setProperty, hn, hv]
  · intro hn
    simp [setProperty, hn]

/-- A witness for C15: the values `"1"` and `"0"` for `"trace"`, and another name. -/
theorem property_interface_witness :
    (gatedTracer.setProperty (sampleState 5) "trace" "1").1 = gatedTracer.enableTracing ∧
    (gatedTracer.enableTracing.setProperty (sampleState 5) "trace" "0").1 =
      gatedTracer.enableTracing.disableTracing ∧
    (gatedTracer.setProperty (sampleState 5) "verbose" "1").1 = gatedTracer :=
  ⟨(property_interface gatedTracer (sampleState 5) "trace" "1").2.1 rfl rfl,
    (property_interface gatedTracer.enableTracing (sampleState 5) "trace" "0").2.2.1 rfl
      (by decide),
    (property_interface gatedTracer (sampleState 5) "verbose" "1").2.2.2.1 (by decide)⟩

theorem subOperation_eq (opcode : Nat) : (opcode >>> 16) &&& 0xFF = opcode / 2 ^ 16 % 2 ^ 8 := by
  rw [Nat.shiftRight_eq_div_pow]
  exact Nat.and_pow_two_sub_one_eq_mod (opcode / 2 ^ 16) 8

/-- C16: for an opcode that passes `OPCODE_CHECK`, the sub-operation is the byte at
bits 16..23 of the opcode; the sub-operation `Enable` gives the state of
`enableTracing()`, the sub-operation `Disable` (a different enumerator) that of
`disableTracing()`, and any other one leaves the state unchanged; an opcode that
fails the check leaves the state unchanged. -/
theorem onCustomInstruction_command (K : Constants) (t : MemoryTracer)
    (state : S2EExecutionState) (opcode : Nat) (henum : K.Enable ≠ K.Disable) :
    (K.OPCODE_CHECK opcode K.MEMORY_TRACER_OPCODE = true →
      (opcode / 2 ^ 16 % 2 ^ 8 = K.Enable →
        t.onCustomInstruction K state opcode = t.enableTracing) ∧
      (opcode / 2 ^ 16 % 2 ^ 8 = K.Disable →
        t.onCustomInstruction K state opcode = t.disableTracing) ∧
      (opcode / 2 ^ 16 % 2 ^ 8 ≠ K.Enable → opcode / 2 ^ 16 % 2 ^ 8 ≠ K.Disable →
        t.onCustomInstruction K state opcode = t)) ∧
    (K.OPCODE_CHECK opcode K.MEMORY_TRACER_OPCODE = false →
      t.onCustomInstruction K state opcode = t) ∧
    (∀ i, i < 8 → (opcode / 2 ^ 16 % 2 ^ 8).testBit i = opcode.testBit (16 + i)) := by
  refine ⟨?_, ?_, ?_⟩
  · intro hcheck
    refine ⟨?_, ?_, ?_⟩
    · intro he
      simp only [onCustomInstruction, hcheck, subOperation_eq, he]
      simp
    · intro hd
      have hne : K.Disable ≠ K.Enable := fun h => henum h.symm
      simp only [onCustomInstruction, hcheck, subOperation_eq, hd]
      simp [hne]
    · intro he hd
      simp only [onCustomInstruction, hcheck, subOperation_eq]
      rw [if_neg he, if_neg hd]
      simp
  · intro hcheck
    simp [onCustomInstruction, hcheck]
  · intro i hi
    rw [Nat.testBit_mod_two_pow, ← Nat.shiftRight_eq_div_pow, Nat.testBit_shiftRight]
    simp [hi]

/-- A witness for C16: the opcodes with sub-operation 0 (`Enable`), 1 (`Disable`)
and 7, and one for another plugin. -/
theorem onCustomInstruction_command_witness :
    sampleConstants.Enable ≠ sampleConstants.Disable ∧
    gatedTracer.onCustomInstruction sampleConstants (sampleState 5) 0x00AC00 =
      gatedTracer.enableTracing ∧
    gatedTracer.enableTracing.onCustomInstruction sampleConstants (sampleState 5) 0x01AC00 =
      gatedTracer.enableTracing.disableTracing ∧
    gatedTracer.onCustomInstruction sampleConstants (sampleState 5) 0x07AC00 = gatedTracer ∧
    gatedTracer.onCustomInstruction sampleConstants (sampleState 5) 0x00AB00 = gatedTracer :=
  ⟨by decide,
    ((onCustomInstruction_command sampleConstants gatedTracer (sampleState 5) 0x00AC00
      (by decide)).1 (by decide)).1 (by decide),
    ((onCustomInstruction_command sampleConstants gatedTracer.enableTracing (sampleState 5)
      0x01AC00 (by decide)).1 (by decide)).2.1 (by decide),
    ((onCustomInstruction_command sampleConstants gatedTracer (sampleState 5) 0x07AC00
      (by decide)).1 (by decide)).2.2 (by decide) (by decide),
    (onCustomInstruction_command sampleConstants gatedTracer (sampleState 5) 0x00AB00
      (by decide)).2.1 (by decide)⟩

/-! ### Initialisation -/

/-- C17: initialisation (when it does not exit) sets up exactly one activation
path on an object `t0` on which nothing is registered: with a time trigger
configured only the timer listener is connected, whatever `manualTrigger` is;
without one and with `manualTrigger` only the custom-instruction listener is
registered; otherwise `enableTracing()` runs at once and neither listener is
registered. The timer and the custom-instruction listener are never both
registered. -/
theorem initialise_activation (cfg : Config) (d : Option ModuleExecutionDetector)
    (log : List TraceEntry) (hok : cfg.monitorModules = true → d.isSome = true) :
    ∃ t0 t : MemoryTracer,
      MemoryTracer.initialise cfg d log = some t ∧
      t0.m_symbolicMemoryMonitor = ⟨false, 0⟩ ∧ t0.m_concreteMemoryMonitor = ⟨false, 0⟩ ∧
      t0.m_pageFaultsMonitor = ⟨false, 0⟩ ∧ t0.m_tlbMissesMonitor = ⟨false, 0⟩ ∧
      t0.m_timerConnection = ⟨false, 0⟩ ∧ t0.customInstructionSlots = 0 ∧
      t0.m_execDetector = d ∧ t0.m_monitorModules = cfg.monitorModules ∧
      t0.m_monitorMemory = cfg.monitorMemory ∧
      t0.m_monitorPageFaults = cfg.monitorPageFaults ∧
      t0.m_monitorTlbMisses = cfg.monitorTlbMisses ∧
      (cfg.timeTrigger.isSome = true → t = { t0 with m_timerConnection := ⟨true, 0⟩ }) ∧
      (cfg.timeTrigger = none → cfg.manualTrigger = true →
        t = { t0 with customInstructionSlots := 1 }) ∧
      (cfg.timeTrigger = none → cfg.manualTrigger = false → t = t0.enableTracing) ∧
      t.m_timerConnection.slots = (if cfg.timeTrigger.isSome then 1 else 0) ∧
      t.customInstructionSlots =
        (if cfg.timeTrigger.isSome then 0 else if cfg.manualTrigger then 1 else 0) ∧
      ¬ (0 < t.m_timerConnection.slots ∧ 0 < t.customInstructionSlots) := by
  have hexit : (cfg.monitorModules && !d.isSome) = false := by
    cases hm : cfg.monitorModules
    · rfl
    · simp [hok hm]
  obtain ⟨t0, ht0⟩ : ∃ t0 : MemoryTracer, t0 =
      { m_tracer := log, m_execDetector := d, m_monitorModules := cfg.monitorModules,
        m_monitorStack := cfg.monitorStack, m_catchAbove := cfg.catchAccessesAbove % 2 ^ 64,
        m_catchBelow := cfg.catchAccessesBelow % 2 ^ 64,
        m_traceHostAddresses := cfg.traceHostAddresses,
        m_debugObjectStates := cfg.debugObjectStates,
        m_timeTrigger := (cfg.timeTrigger.getD 0) % 2 ^ 64, m_elapsedTics := 0,
        m_monitorMemory := cfg.monitorMemory, m_monitorPageFaults := cfg.monitorPageFaults,
        m_monitorTlbMisses := cfg.monitorTlbMisses, m_symbolicMemoryMonitor := ⟨false, 0⟩,
        m_concreteMemoryMonitor := ⟨false, 0⟩, m_pageFaultsMonitor := ⟨false, 0⟩,
        m_tlbMissesMonitor := ⟨false, 0⟩, m_timerConnection := ⟨false, 0⟩,
        customInstructionSlots := 0, executeBlockStartSlots := 0 } := ⟨_, rfl⟩
  have hinit : MemoryTracer.initialise cfg d log =
      if cfg.timeTrigger.isSome then some { t0 with m_timerConnection := ⟨true, 0⟩ }
      else if cfg.manualTrigger then some { t0 with customInstructionSlots := 1 }
      else some t0.enableTracing := by
    rw [ht0]
    simp only [MemoryTracer.initialise, hexit]
    rfl
  have hfields : t0.m_symbolicMemoryMonitor = ⟨false, 0⟩ ∧
      t0.m_concreteMemoryMonitor = ⟨false, 0⟩ ∧
      t0.m_pageFaultsMonitor = ⟨false, 0⟩ ∧ t0.m_tlbMissesMonitor = ⟨false, 0⟩ ∧
      t0.m_timerConnection = ⟨false, 0⟩ ∧ t0.customInstructionSlots = 0 ∧
      t0.m_execDetector = d ∧ t0.m_monitorModules = cfg.monitorModules ∧
      t0.m_monitorMemory = cfg.monitorMemory ∧
      t0.m_monitorPageFaults = cfg.monitorPageFaults ∧
      t0.m_monitorTlbMisses = cfg.monitorTlbMisses := by
    rw [ht0]
    exact ⟨rfl, rfl, rfl, rfl, rfl, rfl, rfl, rfl, rfl, rfl, rfl⟩
  obtain ⟨f1, f2, f3, f4, f5, f6, f7, f8, f9, f10, f11⟩ := hfields
  have hcustom : t0.enableTracing.customInstructionSlots = 0 := by
    by_cases hmem : t0.m_monitorMemory = true <;>
      by_cases hmod : t0.m_monitorModules = true <;>
      by_cases hp : t0.m_monitorPageFaults = true <;>
      by_cases hl : t0.m_monitorTlbMisses = true <;>
      by_cases hc : t0.m_concreteMemoryMonitor.connected = true <;>
      simp [enableTracing, connectMemoryTracing, Connection.disconnect, Connection.assign,
        hmem, hmod, hp, hl, hc, f6]
  cases htt : cfg.timeTrigger with
  | some n =>
    rw [htt] at hinit
    refine ⟨t0, _, hinit, f1, f2, f3, f4, f5, f6, f7, f8, f9, f10, f11, ?_, ?_, ?_, ?_, ?_, ?_⟩
    · intro _; rfl
    · intro h; cases h
    · intro h; cases h
    · rfl
    · exact f6
    · simp [f6]
  | none =>
    rw [htt] at hinit
    cases hman : cfg.manualTrigger with
    | true =>
      rw [hman] at hinit
      refine ⟨t0, _, hinit, f1, f2, f3, f4, f5, f6, f7, f8, f9, f10, f11, ?_, ?_, ?_, ?_, ?_, ?_⟩
      · intro h; cases h
      · intro _ _; rfl
      · intro _ h; cases h
      · simp [f5, Connection.slots]
      · rfl
      · simp [f5, Connection.slots]
    | false =>
      rw [hman] at hinit
      refine ⟨t0, _, hinit, f1, f2, f3, f4, f5, f6, f7, f8, f9, f10, f11, ?_, ?_, ?_, ?_, ?_, ?_⟩
      · intro h; cases h
      · intro _ h; cases h
      · intro _ _; rfl
      · rw [enableTracing_timerConnection]
        simp [f5, Connection.slots]
      · simpa using hcustom
      · rw [enableTracing_timerConnection]
        simp [f5, Connection.slots]

/-- A witness for C17: a time trigger together with `manualTrigger` registers the
timer listener alone. -/
theorem initialise_activation_witness :
    ({ timerConfig with manualTrigger := true } : Config).monitorModules = false ∧
    ∃ t0 t : MemoryTracer,
      MemoryTracer.initialise { timerConfig with manualTrigger := true } none [] = some t ∧
      t0.m_symbolicMemoryMonitor = ⟨false, 0⟩ ∧ t0.m_concreteMemoryMonitor = ⟨false, 0⟩ ∧
      t0.m_pageFaultsMonitor = ⟨false, 0⟩ ∧ t0.m_tlbMissesMonitor = ⟨false, 0⟩ ∧
      t0.m_timerConnection = ⟨false, 0⟩ ∧ t0.customInstructionSlots = 0 ∧
      t0.m_execDetector = none ∧ t0.m_monitorModules = false ∧
      t0.m_monitorMemory = true ∧
      t0.m_monitorPageFaults = false ∧
      t0.m_monitorTlbMisses = false ∧
      (true = true → t = { t0 with m_timerConnection := ⟨true, 0⟩ }) ∧
      ((some 3 : Option Nat) = none → true = true →
        t = { t0 with customInstructionSlots := 1 }) ∧
      ((some 3 : Option Nat) = none → true = false → t = t0.enableTracing) ∧
      t.m_timerConnection.slots = 1 ∧
      t.customInstructionSlots = 0 ∧
      ¬ (0 < t.m_timerConnection.slots ∧ 0 < t.customInstructionSlots) :=
  ⟨rfl,
    initialise_activation { timerConfig with manualTrigger := true } none []
      (by intro h; exact absurd h (by decide))⟩

/-! ### Listeners that outlive `disableTracing` -/

theorem disableTracing_execDetector (t : MemoryTracer) :
    t.disableTracing.m_execDetector = t.m_execDetector := rfl

theorem blockStart_reactivates (t : MemoryTracer) (state : S2EExecutionState)
    (m : ModuleDescriptor) (pc : Nat) :
    ((t.notifyModuleTranslateBlockStart state m pc).onExecuteBlockStart state pc
      ).tracingEnabled = true := by
  unfold onExecuteBlockStart tracingEnabled
  by_cases hs : (t.notifyModuleTranslateBlockStart state m pc).m_symbolicMemoryMonitor.connected
      = true <;>
    by_cases hc : (t.notifyModuleTranslateBlockStart state m pc).m_concreteMemoryMonitor.connected
      = true <;>
    simp [connectMemoryTracing, Connection.assign, hs, hc]

/-- C19 fails on the code: `disableTracing()` leaves the listeners on the detector,
and for the tracer that initialisation leaves with module-gated memory monitoring
(one module-transition listener), `enableTracing()` followed by `disableTracing()`
leaves two of them and no memory listener connected. A module-transition
notification with a non-null next module then runs the handler twice and
`tracingEnabled()` is false afterwards, not true. A translate-block notification
followed by the block-start notification does make it true, and so does a
module-transition notification when `enableTracing()` has run only once. -/
theorem disableTracing_then_transition_inactive :
    ∃ t0 t1 t2 t3 t4 : MemoryTracer,
      MemoryTracer.initialise gatedConfig (some ⟨0, 0⟩) [] = some t0 ∧
      t0.moduleTransitionSlots = 1 ∧
      runCalls sampleConstants t0 [.enableTracing, .disableTracing] = some t1 ∧
      t1.moduleTransitionSlots = 2 ∧ t1.moduleTranslateBlockStartSlots = 2 ∧
      t1.tracingEnabled = false ∧
      runCalls sampleConstants t1 [.onModuleTransition (sampleState 5) none (some ⟨1⟩)] =
        some t2 ∧
      t2.tracingEnabled = false ∧
      runCalls sampleConstants t1
        [.onModuleTranslateBlockStart (sampleState 5) ⟨1⟩ 5,
         .onExecuteBlockStart (sampleState 5) 5] = some t3 ∧
      t3.tracingEnabled = true ∧
      runCalls sampleConstants t0
        [.disableTracing, .onModuleTransition (sampleState 5) none (some ⟨1⟩)] = some t4 ∧
      t4.tracingEnabled = true :=
  ⟨gatedTracer.enableTracing,
    gatedTracer.enableTracing.enableTracing.disableTracing,
    gatedTracer.enableTracing.enableTracing.disableTracing.notifyModuleTransition
      (sampleState 5) none (some ⟨1⟩),
    (gatedTracer.enableTracing.enableTracing.disableTracing.notifyModuleTranslateBlockStart
      (sampleState 5) ⟨1⟩ 5).onExecuteBlockStart (sampleState 5) 5,
    gatedTracer.enableTracing.disableTracing.notifyModuleTransition (sampleState 5) none
      (some ⟨1⟩),
    by decide, by decide, by decide, by decide, by decide, by decide, by decide, by decide,
    by decide, by decide, by decide, by decide⟩

/-! ### TLB misses and page faults -/

/-- C20: in every state and for every program counter (whatever `catchAbove`,
`catchBelow` and the module-gating state are), the page-fault handler appends
exactly one PAGEFAULT record and the TLB-miss handler, when serialisation succeeds,
exactly one TLBMISS record, each with the current pc, the given address and the
given is-write flag; nothing else of the state changes, in particular no
subscription. When serialisation fails the TLB-miss handler changes nothing. -/
theorem simple_events_unfiltered (t : MemoryTracer) (state : S2EExecutionState) (addr : Nat)
    (is_write : Bool) :
    t.onPageFault state addr is_write =
      { t with m_tracer := t.m_tracer ++
          [⟨.TRACE_PAGEFAULT, .simpleMemoryAccess ⟨state.pc, addr, is_write⟩⟩] } ∧
    t.onTlbMiss state addr is_write true =
      { t with m_tracer := t.m_tracer ++
          [⟨.TRACE_TLBMISS, .simpleMemoryAccess ⟨state.pc, addr, is_write⟩⟩] } ∧
    t.onTlbMiss state addr is_write false = t ∧
    (∀ ok, (t.onTlbMiss state addr is_write ok).m_symbolicMemoryMonitor =
        t.m_symbolicMemoryMonitor ∧
      (t.onTlbMiss state addr is_write ok).m_concreteMemoryMonitor =
        t.m_concreteMemoryMonitor ∧
      (t.onTlbMiss state addr is_write ok).m_pageFaultsMonitor = t.m_pageFaultsMonitor ∧
      (t.onTlbMiss state addr is_write ok).m_tlbMissesMonitor = t.m_tlbMissesMonitor ∧
      (t.onTlbMiss state addr is_write ok).m_timerConnection = t.m_timerConnection ∧
      (t.onTlbMiss state addr is_write ok).m_execDetector = t.m_execDetector) ∧
    (t.decideTracing state = false ∨ (t.forceDisconnect state).2 = true →
      (t.onPageFault state addr is_write).m_tracer.length = t.m_tracer.length + 1 ∧
      (t.onTlbMiss state addr is_write true).m_tracer.length = t.m_tracer.length + 1) := by
  refine ⟨rfl, rfl, rfl, ?_, ?_⟩
  · intro ok
    cases ok <;> exact ⟨rfl, rfl, rfl, rfl, rfl, rfl⟩
  · intro _
    simp [onPageFault, onTlbMiss]

/-- A witness for C20: a page fault and a TLB miss at a program counter that the
trigger policy excludes, outside every module of a module-gated tracer. -/
theorem simple_events_unfiltered_witness :
    ({ gatedTracer with m_catchAbove := 0x1000 } : MemoryTracer).decideTracing
      { sampleState 5 with currentDescriptor := false } = false ∧
    (({ gatedTracer with m_catchAbove := 0x1000 } : MemoryTracer).forceDisconnect
      { sampleState 5 with currentDescriptor := false }).2 = true ∧
    (({ gatedTracer with m_catchAbove := 0x1000 } : MemoryTracer).onPageFault
      { sampleState 5 with currentDescriptor := false } 64 true).m_tracer.length = 0 + 1 ∧
    (({ gatedTracer with m_catchAbove := 0x1000 } : MemoryTracer).onTlbMiss
      { sampleState 5 with currentDescriptor := false } 64 true true).m_tracer.length = 0 + 1 :=
  ⟨by decide, by decide,
    (simple_events_unfiltered { gatedTracer with m_catchAbove := 0x1000 }
      { sampleState 5 with currentDescriptor := false } 64 true).2.2.2.2 (Or.inl (by decide))⟩

/-! ### Module-gating and the detector -/

theorem gatingSound_of_same (t t1 : MemoryTracer) (h : t.GatingSound)
    (hm : t1.m_monitorModules = t.m_monitorModules)
    (hd : t1.m_execDetector.isSome = t.m_execDetector.isSome) : t1.GatingSound := by
  intro h1
  rw [hd]
  exact h (hm ▸ h1)

theorem gatingSound_connectMemoryTracing (t : MemoryTracer) (h : t.GatingSound) :
    t.connectMemoryTracing.GatingSound := by
  apply gatingSound_of_same t _ h <;>
    by_cases hs : t.m_symbolicMemoryMonitor.connected = true <;>
    by_cases hc : t.m_concreteMemoryMonitor.connected = true <;>
    simp [connectMemoryTracing, Connection.assign, hs, hc]

theorem gatingSound_disconnectMemoryTracing (t : MemoryTracer) (h : t.GatingSound) :
    t.disconnectMemoryTracing.GatingSound :=
  gatingSound_of_same t _ h rfl rfl

theorem gatingSound_disableTracing (t : MemoryTracer) (h : t.GatingSound) :
    t.disableTracing.GatingSound :=
  gatingSound_of_same t _ h rfl rfl

theorem gatingSound_enableTracing (t : MemoryTracer) (h : t.GatingSound) :
    t.enableTracing.GatingSound := by
  apply gatingSound_of_same t _ h <;>
    by_cases hmem : t.m_monitorMemory = true <;> by_cases hmod : t.m_monitorModules = true <;>
    by_cases hp : t.m_monitorPageFaults = true <;> by_cases hl : t.m_monitorTlbMisses = true <;>
    by_cases hc : t.m_concreteMemoryMonitor.connected = true <;>
    simp [enableTracing, connectMemoryTracing, Connection.disconnect, Connection.assign, hmem,
      hmod, hp, hl, hc]

theorem gatingSound_of_frame (t t1 : MemoryTracer) (h : t.GatingSound)
    (hf : t1 = { t with m_tracer := t1.m_tracer }) : t1.GatingSound := by
  rw [hf]
  exact h

theorem gatingSound_forceDisconnect (t : MemoryTracer) (state : S2EExecutionState)
    (h : t.GatingSound) : (t.forceDisconnect state).1.GatingSound := by
  unfold forceDisconnect
  split
  · exact gatingSound_disconnectMemoryTracing t h
  · exact h

end MemoryTracer

/-- Every call keeps module-gating together with its detector. -/
theorem gatingSound_apply (K : Constants) (t t1 : MemoryTracer) (c : Call) (h : t.GatingSound)
    (hc : c.apply K t = some t1) : t1.GatingSound := by
  cases c with
  | enableTracing => cases hc; exact MemoryTracer.gatingSound_enableTracing t h
  | disableTracing => cases hc; exact MemoryTracer.gatingSound_disableTracing t h
  | connectMemoryTracing => cases hc; exact MemoryTracer.gatingSound_connectMemoryTracing t h
  | disconnectMemoryTracing =>
    cases hc; exact MemoryTracer.gatingSound_disconnectMemoryTracing t h
  | onModuleTransition state p n =>
    cases hc
    apply MemoryTracer.emit_preserves MemoryTracer.GatingSound _ _ _ _ h
    intro t2 h2
    unfold MemoryTracer.onModuleTransition
    split
    · exact MemoryTracer.gatingSound_connectMemoryTracing t2 h2
    · exact MemoryTracer.gatingSound_disconnectMemoryTracing t2 h2
  | onModuleTranslateBlockStart state m pc =>
    cases hc
    apply MemoryTracer.emit_preserves MemoryTracer.GatingSound _ _ _ _ h
    intro t2 h2
    exact h2
  | onExecuteBlockStart state pc =>
    cases hc; exact MemoryTracer.gatingSound_connectMemoryTracing t h
  | onAfterSymbolicDataMemoryAccess state a ha v f =>
    simp only [Call.apply, MemoryTracer.onAfterSymbolicDataMemoryAccess] at hc
    split at hc
    · cases hc; exact MemoryTracer.gatingSound_forceDisconnect t state h
    · exact MemoryTracer.gatingSound_of_frame _ _
        (MemoryTracer.gatingSound_forceDisconnect t state h)
        (MemoryTracer.traceSymbolic_frame K _ _ state a ha v f hc)
  | onConcreteDataMemoryAccess state a v sz f =>
    cases hc
    unfold MemoryTracer.onConcreteDataMemoryAccess
    split
    · exact MemoryTracer.gatingSound_forceDisconnect t state h
    · exact MemoryTracer.gatingSound_of_frame _ _
        (MemoryTracer.gatingSound_forceDisconnect t state h)
        (MemoryTracer.traceConcrete_frame K _ state a v sz f)
  | onTlbMiss state a w ok =>
    cases hc
    unfold MemoryTracer.onTlbMiss
    split
    · exact h
    · exact h
  | onPageFault state a w => cases hc; exact h
  | onTimer =>
    cases hc
    unfold MemoryTracer.onTimer
    simp only
    split
    · exact h
    · exact MemoryTracer.gatingSound_of_same _ _
        (MemoryTracer.gatingSound_enableTracing
          { t with m_elapsedTics := (t.m_elapsedTics + 1) % 2 ^ 64 } h) rfl rfl
  | onCustomInstruction state opcode =>
    cases hc
    unfold MemoryTracer.onCustomInstruction
    split
    · exact h
    · simp only
      split
      · exact MemoryTracer.gatingSound_enableTracing t h
      · split
        · exact MemoryTracer.gatingSound_disableTracing t h
        · exact h
  | setProperty state name value =>
    cases hc
    unfold MemoryTracer.setProperty
    split
    · split
      · exact MemoryTracer.gatingSound_enableTracing t h
      · exact MemoryTracer.gatingSound_disableTracing t h
    · exact h
  | getProperty state name => cases hc; exact h

/-- After initialisation module-gating is only set together with a detector. -/
theorem gatingSound_initialise (cfg : Config) (d : Option ModuleExecutionDetector)
    (log : List TraceEntry) (t : MemoryTracer)
    (h : MemoryTracer.initialise cfg d log = some t) : t.GatingSound := by
  unfold MemoryTracer.initialise at h
  split at h
  · cases h
  · rename_i hexit
    have hbase : cfg.monitorModules = true → d.isSome = true := by
      intro hm
      cases hd : d.isSome
      · simp [hm, hd] at hexit
      · rfl
    simp only at h
    split at h
    · cases h
      exact hbase
    · split at h
      · cases h
        exact hbase
      · cases h
        apply MemoryTracer.gatingSound_enableTracing
        exact hbase

/-- In every state reached from initialisation by a sequence of calls,
module-gating is only set together with a detector. -/
theorem gatingSound_runCalls (K : Constants) (cs : List Call) (t t1 : MemoryTracer)
    (h : t.GatingSound) (hr : runCalls K t cs = some t1) : t1.GatingSound := by
  induction cs generalizing t with
  | nil => cases hr; exact h
  | cons c cs ih =>
    simp only [runCalls] at hr
    split at hr
    · split at hr
      · rename_i t2 hc
        exact ih t2 (gatingSound_apply K t t2 c h hc) hr
      · cases hr
    · cases hr

end S2E
